import Mathlib

/-! # Race controller (`Galileo/Diag/RaceController.cpp`)

A shallow embedding of the race-status state machine of the slot-car race
controller: the controller object is a record, every member function is a
pure function from the record (and its arguments) to the new record, the
effects it issued (telemetry sends, indicator commands, log calls) and its
return value.

Conventions of the embedding:

* `int` members and locals are `Int`; signed overflow is undefined in C++, so
  the embedding speaks about the executions the language defines.
* the `GetTickCount()` reads of one `StatusCheck` call return one reading (one
  poll is one tick of the clock). The argument `ticks` is the value of the
  local `int ticks` of line 160; the `DWORD` the clock returned is congruent
  to it modulo `2^32`.
* the `DWORD` subtraction of line 200 is unsigned 32-bit arithmetic and is
  reduced modulo `2^32` explicitly. It is the only reader of
  `lastStatusChangeDateTime`, so that member is kept as the reading it was
  assigned, whatever its declared width.
-/

namespace RaceCtl

/-! ## Data model -/

/-- The stages of a race, the enumerators of `enum RaceStatus`. -/
inductive RaceStatus
  | WAITING
  | PREP_READY_TO_START
  | READY_TO_START
  | READY
  | SET
  | GO
  | RACING
  | OFF_TRACK
  | FINAL_LAP
  | WINNER
  | SHOW_WINNER
  | DISQUALIFY
  deriving DecidableEq, Repr

namespace RaceStatus

/-- Modelled from the spec: the ordinal values of `enum RaceStatus`, which is
declared in `RaceController.h`, a header that is not among the sources. The
spec (section 3) orders the stages
`WAITING < PREP_READY_TO_START < READY_TO_START < READY < SET < GO < RACING <
OFF_TRACK < FINAL_LAP < WINNER < SHOW_WINNER`, plus a terminal `DISQUALIFY`;
a C++ enumeration numbers its enumerators from 0 in declaration order. -/
def ord : RaceStatus → Nat
  | WAITING => 0
  | PREP_READY_TO_START => 1
  | READY_TO_START => 2
  | READY => 3
  | SET => 4
  | GO => 5
  | RACING => 6
  | OFF_TRACK => 7
  | FINAL_LAP => 8
  | WINNER => 9
  | SHOW_WINNER => 10
  | DISQUALIFY => 11

/-- The enumerator with a given ordinal value, if there is one:
`static_cast<RaceStatus>(n)`. -/
def ofOrd : Nat → Option RaceStatus
  | 0 => some WAITING
  | 1 => some PREP_READY_TO_START
  | 2 => some READY_TO_START
  | 3 => some READY
  | 4 => some SET
  | 5 => some GO
  | 6 => some RACING
  | 7 => some OFF_TRACK
  | 8 => some FINAL_LAP
  | 9 => some WINNER
  | 10 => some SHOW_WINNER
  | 11 => some DISQUALIFY
  | _ => none

/-- Line 166, `static_cast<RaceStatus>(raceStatus + 1)`: the stage with the
next ordinal. The guard of line 163 only lets stages below `RACING` through,
whose successor is always an enumerator; the fallback keeps the function
total. -/
def next (r : RaceStatus) : RaceStatus :=
  (ofOrd (r.ord + 1)).getD r

end RaceStatus

open RaceStatus

/-- Line 12. -/
def ticksPerPreRaceStatus : Int := 2000

/-- Lines 15-17: the table of stage names, indexed by the ordinal of a
status. -/
def raceStatusNames : List String :=
  ["Prep Ready to Start", "Ready to Start", "Ready", "Set", "Go", "Racing",
   "Off-Track", "Final Lap", "Winner", "Show Winner", "Waiting"]

/-- The colours of the indicator. -/
inductive Color
  | RED | YELLOW | GREEN | WHITE | BLACK
  deriving DecidableEq, Repr

/-- A command issued to the indicator device. -/
inductive IndicatorCmd
  | SetColor (c : Color)
  | Flash (colors : List Color) (interval : Nat)
  | Blip (duration : Nat) (c : Color)
  deriving DecidableEq, Repr

/-- The value argument of `SendRace`: the `int` overload (line 306) or the
`char*` overload (line 288). The text is `none` when the pointer was read
past the end of `raceStatusNames`. -/
inductive Payload
  | num (n : Int)
  | text (s : Option String)
  deriving DecidableEq, Repr

/-- One message handed to `SendDirect` on the race-event port 12346 by
`SendRace`: `lane` is the `"track"` field, present only for a positive track
number (lines 291-298 and 309-316). -/
structure Message where
  lane : Option Int
  key : String
  value : Payload
  deriving DecidableEq, Repr

/-- Lines 288-322, `SendRace(track, key, value)`: the message it builds. -/
def SendRace (track : Int) (key : String) (value : Payload) : Message :=
  { lane := if track > 0 then some track else none, key := key, value := value }

/-- A call of `Log`. -/
inductive LogCall
  | line (s : String)
  | status (name : Option String)
  deriving DecidableEq, Repr

/-- What one member-function call did to the outside world, in order. -/
structure Effects where
  sent : List Message := []
  indicator : List IndicatorCmd := []
  log : List LogCall := []
  deriving DecidableEq, Repr

/-- The members of a `Track` that the controller reads or resets. -/
structure Track where
  trackId : Int
  lap : Int
  isOfftrack : Bool
  deriving DecidableEq, Repr

/-- The members of `RaceController` used by the race-status logic. -/
structure RaceController where
  raceStatus : RaceStatus
  lastRaceStatus : RaceStatus
  lastRaceStatusTicks : Int
  lastStatusChangeDateTime : Int
  ticksRaceStarted : Int
  carsFinished : Int
  trackStatusId : Int
  tracksReady : Int
  trackCount : Int
  raceLaps : Int
  tracks : List Track
  deriving DecidableEq, Repr

/-! ## Queries -/

/-- Lines 74-77. -/
def IsRacing (s : RaceController) : Bool :=
  decide (RACING.ord ≤ s.raceStatus.ord) && decide (s.raceStatus.ord ≤ WINNER.ord)

/-- Lines 79-82. -/
def IsRacingOrPostRace (s : RaceController) (_ticks : Int) : Bool :=
  decide (RACING.ord ≤ s.raceStatus.ord)

/-- Lines 84-87. In C++ `&&` binds tighter than `?:`, so the expression is
`(raceStatus >= READY && includeGo) ? (raceStatus <= GO) : (raceStatus < GO)`. -/
def IsInCountdown (s : RaceController) (includeGo : Bool) : Bool :=
  if (decide (READY.ord ≤ s.raceStatus.ord) && includeGo) = true then
    decide (s.raceStatus.ord ≤ GO.ord)
  else
    decide (s.raceStatus.ord < GO.ord)

/-- Lines 124-127. -/
def GetRaceTime (s : RaceController) (finishLine : Int) : Int :=
  finishLine - s.ticksRaceStarted

/-! ## Lane events -/

/-- Lines 98-102, the first `if` of `TrackLapChanged`. -/
def TrackLapChanged.finalLap (s : RaceController) (track : Track) :
    RaceController × List Message :=
  if s.raceStatus = RACING ∧ track.lap = s.raceLaps - 1 then
    ({ s with raceStatus := FINAL_LAP },
     [SendRace track.trackId "finallap" (Payload.num track.trackId)])
  else
    (s, [])

/-- Lines 109-113: the first finisher is recorded and announced. -/
def TrackLapChanged.firstFinisher (s : RaceController) (track : Track) :
    RaceController × List Message :=
  if s.carsFinished = 1 then
    ({ s with trackStatusId := track.trackId },
     [SendRace track.trackId "winner" (Payload.num track.trackId)])
  else
    (s, [])

/-- Lines 115-118. -/
def TrackLapChanged.showWinner (s : RaceController) : RaceController :=
  if s.carsFinished > 0 then { s with raceStatus := SHOW_WINNER } else s

/-- Lines 104-119, the second `if` of `TrackLapChanged`. -/
def TrackLapChanged.finish (s : RaceController) (track : Track) :
    RaceController × List Message :=
  if s.raceStatus = FINAL_LAP ∧ track.lap = s.raceLaps then
    let a := { s with raceStatus := WINNER, carsFinished := s.carsFinished + 1 }
    let b := TrackLapChanged.firstFinisher a track
    (TrackLapChanged.showWinner b.1, b.2)
  else
    (s, [])

/-- Lines 96-122, `RaceController::TrackLapChanged`: the new controller, the
effects and the returned flag. -/
def TrackLapChanged (s : RaceController) (track : Track) :
    RaceController × Effects × Bool :=
  let a := TrackLapChanged.finalLap s track
  let b := TrackLapChanged.finish a.1 track
  (b.1, { sent := a.2 ++ b.2 }, decide (track.lap = b.1.raceLaps))

/-- Lines 129-136, `RaceController::TrackReady`. -/
def TrackReady (s : RaceController) (_track : Track) : RaceController × Effects :=
  if s.tracksReady < s.trackCount then
    ({ s with tracksReady := s.tracksReady + 1 },
     { indicator := [IndicatorCmd.Blip 125 Color.GREEN] })
  else
    (s, {})

/-- Lines 138-143, `RaceController::Disqualify`. -/
def Disqualify (s : RaceController) (track : Track) : RaceController × Effects :=
  ({ s with trackStatusId := track.trackId, raceStatus := DISQUALIFY },
   { log := [LogCall.line "Disqualified"] })

/-! ## Race start and the status check -/

/-- Modelled from the spec: `Track::StartRace(ticks)`, defined in the lane
monitor's source file, which is not among the sources. The spec (section 4.1)
says that race start resets every lane's `lap` to 0. -/
def Track.StartRace (t : Track) (_ticks : Int) : Track :=
  { t with lap := 0 }

/-- Lines 149-152: the loop over the first `trackCount` lanes. -/
def startTracks (trackCount : Int) (tracks : List Track) (ticks : Int) : List Track :=
  (tracks.take trackCount.toNat).map (fun t => t.StartRace ticks)
    ++ tracks.drop trackCount.toNat

/-- Lines 145-155, `RaceController::StartRace`. -/
def StartRace (s : RaceController) (ticks : Int) : RaceController :=
  { s with
    ticksRaceStarted := ticks
    tracks := startTracks s.trackCount s.tracks ticks
    carsFinished := 0 }

/-- Lines 177-185: whether one of the first `trackCount` lanes is off the
track (`Initialize` sizes `tracks` to `trackCount`, so the loop stays inside
the vector). -/
def anyCarsOffTrack (s : RaceController) : Bool :=
  (s.tracks.take s.trackCount.toNat).any (fun t => t.isOfftrack)

/-- Lines 163-173: the pre-race auto-advance. -/
def StatusCheck.advance (s : RaceController) (ticks : Int) : RaceController :=
  if s.raceStatus.ord < RACING.ord ∧
      (s.raceStatus = GO ∨ ticks ≥ s.lastRaceStatusTicks + ticksPerPreRaceStatus) then
    let a := { s with raceStatus := s.raceStatus.next }
    if a.raceStatus = RACING then StartRace a ticks else a
  else
    s

/-- Lines 175-194: the reportable status, with the off-track overlay; the
controller is returned too because line 191 writes to it. -/
def StatusCheck.overlay (s : RaceController) (ticks : Int) : RaceController × RaceStatus :=
  if s.raceStatus = RACING ∧ anyCarsOffTrack s = true then
    (if s.lastRaceStatus ≠ OFF_TRACK then { s with lastStatusChangeDateTime := ticks } else s,
     OFF_TRACK)
  else
    (s, s.raceStatus)

/-- Lines 222-262: the indicator command of a reported status. -/
def indicatorFor (reportable : RaceStatus) (trackStatusId : Int) : List IndicatorCmd :=
  match reportable with
  | PREP_READY_TO_START => [IndicatorCmd.Flash [Color.WHITE, Color.BLACK] 250]
  | READY_TO_START => [IndicatorCmd.Flash [Color.WHITE, Color.BLACK] 250]
  | READY => [IndicatorCmd.SetColor Color.RED]
  | SET => [IndicatorCmd.SetColor Color.YELLOW]
  | GO => [IndicatorCmd.SetColor Color.GREEN]
  | RACING => [IndicatorCmd.SetColor Color.GREEN]
  | OFF_TRACK => [IndicatorCmd.Flash [Color.YELLOW, Color.BLACK] 250]
  | FINAL_LAP => [IndicatorCmd.Flash [Color.YELLOW, Color.RED] 250]
  | WINNER => [IndicatorCmd.Flash [Color.WHITE, Color.BLACK] 50]
  | SHOW_WINNER =>
      [IndicatorCmd.Flash
        [Color.GREEN, Color.BLACK, if trackStatusId = 2 then Color.GREEN else Color.BLACK,
         Color.BLACK, Color.BLACK, Color.BLACK] 125]
  | WAITING => [IndicatorCmd.SetColor Color.BLACK]
  | DISQUALIFY =>
      [IndicatorCmd.Flash
        [Color.RED, Color.BLACK, if trackStatusId = 2 then Color.RED else Color.BLACK,
         Color.BLACK, Color.BLACK, Color.BLACK] 125]

/-- Lines 212-262: a changed (or reset) status is recorded, logged, sent and
shown. -/
def StatusCheck.report (s : RaceController) (reportable : RaceStatus) (ticks : Int) :
    RaceController × Effects :=
  let a := { s with
    lastStatusChangeDateTime := ticks
    lastRaceStatusTicks := ticks
    lastRaceStatus := reportable }
  let name := raceStatusNames.get? reportable.ord
  (a, { log := [LogCall.status name]
        sent := [SendRace 0 "status" (Payload.text name)]
        indicator := indicatorFor reportable a.trackStatusId })

/-- The modulus of `DWORD` arithmetic. -/
def dwordModulus : Int := 4294967296

/-- Lines 175-263: the status check after the auto-advance. -/
def StatusCheck.settle (a : RaceController) (ticks : Int) : RaceController × Effects :=
  let b := StatusCheck.overlay a ticks
  if b.2 ≠ b.1.lastRaceStatus then
    StatusCheck.report b.1 b.2 ticks
  else
    let diff := (ticks - b.1.lastStatusChangeDateTime) % dwordModulus
    if b.2 = OFF_TRACK ∧ diff > 10000 then
      StatusCheck.report { b.1 with raceStatus := WAITING } WAITING ticks
    else
      (b.1, {})

/-- Lines 158-263, `RaceController::StatusCheck`, at clock reading `ticks`. -/
def StatusCheck (s : RaceController) (ticks : Int) : RaceController × Effects :=
  StatusCheck.settle (StatusCheck.advance s ticks) ticks

/-- The reportable status a status check compares with the one reported
before (the value of `reportableRaceStatus` at line 196). -/
def StatusCheck.reportable (s : RaceController) (ticks : Int) : RaceStatus :=
  (StatusCheck.overlay (StatusCheck.advance s ticks) ticks).2

/-- Whether the status check takes the off-track timeout branch, lines
201-204, after the auto-advance left controller `a`: the reportable status
is unchanged, it is `OFF_TRACK`, and the `DWORD` difference of line 200 is
above 10000. -/
def StatusCheck.settleTimedOut (a : RaceController) (ticks : Int) : Bool :=
  let b := StatusCheck.overlay a ticks
  decide (b.2 = b.1.lastRaceStatus) && decide (b.2 = OFF_TRACK) &&
    decide ((ticks - b.1.lastStatusChangeDateTime) % dwordModulus > 10000)

/-- Whether a status check takes the off-track timeout branch. -/
def StatusCheck.timedOut (s : RaceController) (ticks : Int) : Bool :=
  StatusCheck.settleTimedOut (StatusCheck.advance s ticks) ticks

/-- The controller after a run of `TrackLapChanged` calls, one per lane event
of the list. -/
def lapEvents (s : RaceController) : List Track → RaceController
  | [] => s
  | track :: rest => lapEvents (TrackLapChanged s track).1 rest

/-- The controller after a run of status checks at the given clock
readings. -/
def statusChecks (s : RaceController) : List Int → RaceController
  | [] => s
  | ticks :: rest => statusChecks (StatusCheck s ticks).1 rest

/-! ## Sample data -/

/-- A two-lane controller in stage `r`, three laps to race, nothing recorded
yet. -/
def sample (r : RaceStatus) : RaceController :=
  { raceStatus := r, lastRaceStatus := r, lastRaceStatusTicks := 0,
    lastStatusChangeDateTime := 0, ticksRaceStarted := 0, carsFinished := 0,
    trackStatusId := 0, tracksReady := 0, trackCount := 2, raceLaps := 3,
    tracks := [{ trackId := 1, lap := 0, isOfftrack := false },
               { trackId := 2, lap := 0, isOfftrack := false }] }

/-- A two-lane race in stage `RACING` with lane 2 off the track, for which
`OFF_TRACK` was reported at tick 0. -/
def sampleOffTrack : RaceController :=
  { sample RACING with
    lastRaceStatus := OFF_TRACK
    tracks := [{ trackId := 1, lap := 1, isOfftrack := false },
               { trackId := 2, lap := 1, isOfftrack := true }] }

/-- Lane `id` having completed `lap` laps, on the track. -/
def lane (id lap : Int) : Track :=
  { trackId := id, lap := lap, isOfftrack := false }

/-! ## Runs of operations -/

/-- One operation on the controller: a status check at a clock reading, one of
the three lane callbacks, or the lane monitors updating the lanes (`lap` and
`isOfftrack` are written by the lane monitor, outside this file). -/
inductive Event
  | statusCheck (ticks : Int)
  | lapChanged (track : Track)
  | trackReady (track : Track)
  | disqualify (track : Track)
  | lanes (tracks : List Track)
  deriving DecidableEq, Repr

/-- The controller after one operation. -/
def step (s : RaceController) : Event → RaceController
  | Event.statusCheck ticks => (StatusCheck s ticks).1
  | Event.lapChanged track => (TrackLapChanged s track).1
  | Event.trackReady track => (TrackReady s track).1
  | Event.disqualify track => (Disqualify s track).1
  | Event.lanes tracks => { s with tracks := tracks }

/-- The controller after a run of operations. -/
def run (s : RaceController) : List Event → RaceController
  | [] => s
  | e :: rest => run (step s e) rest

/-- A whole race of the sample controller: the countdown, the start, lane 1
entering its final lap and finishing. -/
def sampleRace : List Event :=
  [Event.statusCheck 2000, Event.statusCheck 4000, Event.statusCheck 6000,
   Event.statusCheck 8000, Event.statusCheck 10000, Event.statusCheck 10001,
   Event.lapChanged (lane 1 2), Event.statusCheck 10500,
   Event.lapChanged (lane 1 3)]

/-- What every operation keeps true of a controller started in `WAITING`: the
stage is neither `OFF_TRACK` nor `WINNER`, and while it is `RACING` or
`FINAL_LAP` the finished-car counter is not negative. -/
def StageInvariant (s : RaceController) : Prop :=
  s.raceStatus ≠ OFF_TRACK ∧ s.raceStatus ≠ WINNER ∧
    ((s.raceStatus = RACING ∨ s.raceStatus = FINAL_LAP) → 0 ≤ s.carsFinished)

/-! ## The tables of the spec, for comparison with the code -/

/-- The indicator table of the spec (section 4.4), row by row: the command of
each reportable status, given the lane recorded in `trackStatusId`. -/
def specIndicator (reportable : RaceStatus) (trackStatusId : Int) : IndicatorCmd :=
  if reportable = PREP_READY_TO_START ∨ reportable = READY_TO_START then
    IndicatorCmd.Flash [Color.WHITE, Color.BLACK] 250
  else if reportable = READY then IndicatorCmd.SetColor Color.RED
  else if reportable = SET then IndicatorCmd.SetColor Color.YELLOW
  else if reportable = GO ∨ reportable = RACING then IndicatorCmd.SetColor Color.GREEN
  else if reportable = OFF_TRACK then IndicatorCmd.Flash [Color.YELLOW, Color.BLACK] 250
  else if reportable = FINAL_LAP then IndicatorCmd.Flash [Color.YELLOW, Color.RED] 250
  else if reportable = WINNER then IndicatorCmd.Flash [Color.WHITE, Color.BLACK] 50
  else if reportable = SHOW_WINNER then
    IndicatorCmd.Flash
      [Color.GREEN, Color.BLACK, if trackStatusId = 2 then Color.GREEN else Color.BLACK,
       Color.BLACK, Color.BLACK, Color.BLACK] 125
  else if reportable = DISQUALIFY then
    IndicatorCmd.Flash
      [Color.RED, Color.BLACK, if trackStatusId = 2 then Color.RED else Color.BLACK,
       Color.BLACK, Color.BLACK, Color.BLACK] 125
  else IndicatorCmd.SetColor Color.BLACK

/-- The human-readable name of each stage, as the spec pairs them
(`WAITING` with "Waiting", `PREP_READY_TO_START` with "Prep Ready to Start",
and so on to `SHOW_WINNER` with "Show Winner"); no name is given anywhere for
`DISQUALIFY`. -/
def stageName : RaceStatus → Option String
  | WAITING => some "Waiting"
  | PREP_READY_TO_START => some "Prep Ready to Start"
  | READY_TO_START => some "Ready to Start"
  | READY => some "Ready"
  | SET => some "Set"
  | GO => some "Go"
  | RACING => some "Racing"
  | OFF_TRACK => some "Off-Track"
  | FINAL_LAP => some "Final Lap"
  | WINNER => some "Winner"
  | SHOW_WINNER => some "Show Winner"
  | DISQUALIFY => none

/-! ## The status check under another numbering of the stages

The numbering of `enum RaceStatus` enters the status check at two places: the
auto-advance (lines 163 and 166) and the index into `raceStatusNames` (lines
217-218). The definitions below are the same code with the numbering as a
parameter. -/

/-- The twelve enumerators. -/
def allStatuses : List RaceStatus :=
  [WAITING, PREP_READY_TO_START, READY_TO_START, READY, SET, GO, RACING, OFF_TRACK,
   FINAL_LAP, WINNER, SHOW_WINNER, DISQUALIFY]

/-- Line 166 under the numbering `rank`: the stage numbered one more than `r`
(`r` itself if there is none). -/
def nextWith (rank : RaceStatus → Nat) (r : RaceStatus) : RaceStatus :=
  (allStatuses.find? (fun x => decide (rank x = rank r + 1))).getD r

/-- Lines 163-173 under the numbering `rank`. -/
def StatusCheck.advanceWith (rank : RaceStatus → Nat) (s : RaceController) (ticks : Int) :
    RaceController :=
  if rank s.raceStatus < rank RACING ∧
      (s.raceStatus = GO ∨ ticks ≥ s.lastRaceStatusTicks + ticksPerPreRaceStatus) then
    let a := { s with raceStatus := nextWith rank s.raceStatus }
    if a.raceStatus = RACING then StartRace a ticks else a
  else
    s

/-- Lines 212-262 under the numbering `rank`. -/
def StatusCheck.reportWith (rank : RaceStatus → Nat) (s : RaceController)
    (reportable : RaceStatus) (ticks : Int) : RaceController × Effects :=
  let a := { s with
    lastStatusChangeDateTime := ticks
    lastRaceStatusTicks := ticks
    lastRaceStatus := reportable }
  let name := raceStatusNames.get? (rank reportable)
  (a, { log := [LogCall.status name]
        sent := [SendRace 0 "status" (Payload.text name)]
        indicator := indicatorFor reportable a.trackStatusId })

/-- Lines 175-263 under the numbering `rank`. -/
def StatusCheck.settleWith (rank : RaceStatus → Nat) (a : RaceController) (ticks : Int) :
    RaceController × Effects :=
  let b := StatusCheck.overlay a ticks
  if b.2 ≠ b.1.lastRaceStatus then
    StatusCheck.reportWith rank b.1 b.2 ticks
  else
    let diff := (ticks - b.1.lastStatusChangeDateTime) % dwordModulus
    if b.2 = OFF_TRACK ∧ diff > 10000 then
      StatusCheck.reportWith rank { b.1 with raceStatus := WAITING } WAITING ticks
    else
      (b.1, {})

/-- Lines 158-263, `RaceController::StatusCheck`, under the numbering `rank`. -/
def StatusCheckWith (rank : RaceStatus → Nat) (s : RaceController) (ticks : Int) :
    RaceController × Effects :=
  StatusCheck.settleWith rank (StatusCheck.advanceWith rank s ticks) ticks

end RaceCtl

namespace RaceCtl

open RaceStatus

/-! ## Lap and winner arbitration -/

/-- A lane event leaves a controller alone unless the stage is `RACING` or
`FINAL_LAP`. -/
theorem TrackLapChanged_idle (s : RaceController) (track : Track)
    (h1 : s.raceStatus ≠ RACING) (h2 : s.raceStatus ≠ FINAL_LAP) :
    (TrackLapChanged s track).1 = s := by
  simp [TrackLapChanged, TrackLapChanged.finalLap, TrackLapChanged.finish, h1, h2]

/-- C1: once a first lane has finished from `FINAL_LAP` (the counter goes from 0
to 1, the lane is recorded and the stage is `SHOW_WINNER`), a lap event of a
second lane that has also completed `raceLaps` laps changes nothing: the counter
`carsFinished` stays at 1 instead of becoming 2, and `trackStatusId` keeps the
first lane. -/
theorem TrackLapChanged_second_finisher_not_counted (s : RaceController)
    (first second : Track) (hs : s.raceStatus = FINAL_LAP) (hc : s.carsFinished = 0)
    (h1 : first.lap = s.raceLaps) (h2 : second.lap = s.raceLaps) :
    (TrackLapChanged s first).1.carsFinished = 1 ∧
    (TrackLapChanged s first).1.trackStatusId = first.trackId ∧
    (TrackLapChanged s first).1.raceStatus = SHOW_WINNER ∧
    (TrackLapChanged (TrackLapChanged s first).1 second).1 = (TrackLapChanged s first).1 ∧
    (TrackLapChanged (TrackLapChanged s first).1 second).1.carsFinished = 1 ∧
    (TrackLapChanged (TrackLapChanged s first).1 second).1.trackStatusId = first.trackId ∧
    (TrackLapChanged (TrackLapChanged s first).1 second).2.1.sent = [] ∧
    (TrackLapChanged (TrackLapChanged s first).1 second).2.2 = true := by
  have e : (TrackLapChanged s first).1 =
      { s with raceStatus := SHOW_WINNER, carsFinished := 1,
               trackStatusId := first.trackId } := by
    simp [TrackLapChanged, TrackLapChanged.finalLap, TrackLapChanged.finish,
      TrackLapChanged.firstFinisher, TrackLapChanged.showWinner, hs, hc, h1]
  rw [e]
  simp [TrackLapChanged, TrackLapChanged.finalLap, TrackLapChanged.finish, h2]

/-- The failing input of C1: three laps to race, lane 1 finishes first, then
lane 2 finishes. -/
theorem TrackLapChanged_second_finisher_not_counted_witness :
    (sample FINAL_LAP).raceStatus = FINAL_LAP ∧ (sample FINAL_LAP).carsFinished = 0 ∧
    (lane 1 3).lap = (sample FINAL_LAP).raceLaps ∧
    (lane 2 3).lap = (sample FINAL_LAP).raceLaps ∧
    (TrackLapChanged (TrackLapChanged (sample FINAL_LAP) (lane 1 3)).1 (lane 2 3)).1.carsFinished
      = 1 :=
  ⟨rfl, rfl, rfl, rfl,
   (TrackLapChanged_second_finisher_not_counted (sample FINAL_LAP) (lane 1 3) (lane 2 3)
      rfl rfl rfl rfl).2.2.2.2.1⟩

/-- C3: from `FINAL_LAP` with no car finished yet, a lap event of a lane that
has completed `raceLaps` laps sets `carsFinished` to 1, records the lane in
`trackStatusId`, leaves the stage at `SHOW_WINNER`, sends exactly one message,
the "winner" message of that lane, changes nothing else and returns true. -/
theorem TrackLapChanged_first_finisher (s : RaceController) (track : Track)
    (hs : s.raceStatus = FINAL_LAP) (hc : s.carsFinished = 0)
    (hl : track.lap = s.raceLaps) :
    TrackLapChanged s track =
      ({ s with raceStatus := SHOW_WINNER, carsFinished := 1,
                trackStatusId := track.trackId },
       { sent := [SendRace track.trackId "winner" (Payload.num track.trackId)] },
       true) := by
  simp [TrackLapChanged, TrackLapChanged.finalLap, TrackLapChanged.finish,
    TrackLapChanged.firstFinisher, TrackLapChanged.showWinner, hs, hc, hl]

/-- Lane 1 wins a three-lap race. -/
theorem TrackLapChanged_first_finisher_witness :
    (sample FINAL_LAP).raceStatus = FINAL_LAP ∧ (sample FINAL_LAP).carsFinished = 0 ∧
    (lane 1 3).lap = (sample FINAL_LAP).raceLaps ∧
    TrackLapChanged (sample FINAL_LAP) (lane 1 3) =
      ({ sample FINAL_LAP with raceStatus := SHOW_WINNER, carsFinished := 1,
                               trackStatusId := 1 },
       { sent := [{ lane := some 1, key := "winner", value := Payload.num 1 }] },
       true) :=
  ⟨rfl, rfl, rfl, TrackLapChanged_first_finisher (sample FINAL_LAP) (lane 1 3) rfl rfl rfl⟩

/-- C4: a lap event of a lane that has completed `raceLaps - 1` laps, received in
stage `RACING`, moves the stage to `FINAL_LAP` and sends exactly one message, the
"finallap" message of that lane; received in any other stage it sends nothing
and changes nothing, the stage included. -/
theorem TrackLapChanged_final_lap_once (s : RaceController) (track : Track)
    (hl : track.lap = s.raceLaps - 1) :
    (s.raceStatus = RACING →
      TrackLapChanged s track =
        ({ s with raceStatus := FINAL_LAP },
         { sent := [SendRace track.trackId "finallap" (Payload.num track.trackId)] },
         false)) ∧
    (s.raceStatus ≠ RACING → TrackLapChanged s track = (s, {}, false)) := by
  have hne : ¬ (s.raceLaps - 1 = s.raceLaps) := by omega
  constructor
  · intro hs
    simp [TrackLapChanged, TrackLapChanged.finalLap, TrackLapChanged.finish, hs, hl, hne]
  · intro hs
    simp [TrackLapChanged, TrackLapChanged.finalLap, TrackLapChanged.finish, hs, hl, hne]

/-- Lane 2 enters its final lap of a three-lap race; the same event in stage
`FINAL_LAP` does nothing. -/
theorem TrackLapChanged_final_lap_once_witness :
    (lane 2 2).lap = (sample RACING).raceLaps - 1 ∧
    TrackLapChanged (sample RACING) (lane 2 2) =
      ({ sample RACING with raceStatus := FINAL_LAP },
       { sent := [{ lane := some 2, key := "finallap", value := Payload.num 2 }] },
       false) ∧
    TrackLapChanged (sample FINAL_LAP) (lane 2 2) = (sample FINAL_LAP, {}, false) :=
  ⟨rfl,
   (TrackLapChanged_final_lap_once (sample RACING) (lane 2 2) rfl).1 rfl,
   (TrackLapChanged_final_lap_once (sample FINAL_LAP) (lane 2 2) rfl).2 (by decide)⟩

/-! ## Countdown query -/

/-- C2: below `READY` the query `IsInCountdown` answers true for both values
of `includeGo`, where the stated equivalence requires false. -/
theorem IsInCountdown_below_READY (s : RaceController) (includeGo : Bool)
    (h : s.raceStatus.ord < READY.ord) : IsInCountdown s includeGo = true := by
  cases hr : s.raceStatus <;> cases includeGo <;>
    simp [IsInCountdown, RaceStatus.ord, hr] at h ⊢

/-- The failing input of C2: stage `PREP_READY_TO_START`. -/
theorem IsInCountdown_below_READY_witness :
    (sample PREP_READY_TO_START).raceStatus.ord < READY.ord ∧
    IsInCountdown (sample PREP_READY_TO_START) true = true ∧
    IsInCountdown (sample PREP_READY_TO_START) false = true :=
  ⟨by decide,
   IsInCountdown_below_READY (sample PREP_READY_TO_START) true (by decide),
   IsInCountdown_below_READY (sample PREP_READY_TO_START) false (by decide)⟩

/-- From `READY` on, `IsInCountdown` is the stated test. -/
theorem IsInCountdown_from_READY (s : RaceController) (includeGo : Bool)
    (h : READY.ord ≤ s.raceStatus.ord) :
    (IsInCountdown s includeGo = true ↔
      if includeGo = true then s.raceStatus.ord ≤ GO.ord
      else s.raceStatus.ord < GO.ord) := by
  cases hr : s.raceStatus <;> cases includeGo <;>
    simp [IsInCountdown, RaceStatus.ord, hr] at h ⊢

/-! ## Disqualification -/

/-- Lap events leave a disqualified race disqualified. -/
theorem lapEvents_DISQUALIFY (events : List Track) :
    ∀ s : RaceController, s.raceStatus = DISQUALIFY →
      (lapEvents s events).raceStatus = DISQUALIFY := by
  induction events with
  | nil => intro s h; exact h
  | cons track rest ih =>
    intro s h
    have e : (TrackLapChanged s track).1 = s :=
      TrackLapChanged_idle s track (by simp [h]) (by simp [h])
    simp only [lapEvents, e]
    exact ih s h

/-- C10: `Disqualify` sets the stage to `DISQUALIFY` and records the lane in
`trackStatusId`, and after it every run of `TrackLapChanged` calls, whatever
the lanes and their lap counts, leaves the stage at `DISQUALIFY`. -/
theorem Disqualify_terminal_for_lap_events (s : RaceController) (track : Track)
    (events : List Track) :
    (Disqualify s track).1.raceStatus = DISQUALIFY ∧
    (Disqualify s track).1.trackStatusId = track.trackId ∧
    (lapEvents (Disqualify s track).1 events).raceStatus = DISQUALIFY :=
  ⟨rfl, rfl, lapEvents_DISQUALIFY events _ rfl⟩

/-! ## The status check -/

/-- A status check outside the pre-race stages does not auto-advance. -/
theorem advance_of_not_pre_race (s : RaceController) (ticks : Int)
    (h : RACING.ord ≤ s.raceStatus.ord) : StatusCheck.advance s ticks = s := by
  have hn : ¬ (s.raceStatus.ord < RACING.ord) := by omega
  simp [StatusCheck.advance, hn]

/-- The auto-advance test of line 163, for a pre-race stage, in terms of the
time elapsed since the last recorded stage change. -/
theorem advance_pre_race (s : RaceController) (ticks : Int)
    (h : s.raceStatus.ord < RACING.ord) :
    StatusCheck.advance s ticks =
      if s.raceStatus = GO ∨ 2000 ≤ ticks - s.lastRaceStatusTicks then
        (if s.raceStatus.next = RACING then
          StartRace { s with raceStatus := s.raceStatus.next } ticks
        else { s with raceStatus := s.raceStatus.next })
      else s := by
  have hc : (ticks ≥ s.lastRaceStatusTicks + ticksPerPreRaceStatus) ↔
      2000 ≤ ticks - s.lastRaceStatusTicks := by
    unfold ticksPerPreRaceStatus
    omega
  simp only [StatusCheck.advance, h, hc, true_and]

/-- The part of a status check after the auto-advance, branch by branch. -/
theorem settle_eq (a : RaceController) (ticks : Int) :
    StatusCheck.settle a ticks =
      if a.raceStatus = RACING ∧ anyCarsOffTrack a = true then
        if a.lastRaceStatus = OFF_TRACK then
          if (ticks - a.lastStatusChangeDateTime) % dwordModulus > 10000 then
            StatusCheck.report { a with raceStatus := WAITING } WAITING ticks
          else (a, {})
        else
          StatusCheck.report { a with lastStatusChangeDateTime := ticks } OFF_TRACK ticks
      else if a.raceStatus = a.lastRaceStatus then
        if a.raceStatus = OFF_TRACK ∧
            (ticks - a.lastStatusChangeDateTime) % dwordModulus > 10000 then
          StatusCheck.report { a with raceStatus := WAITING } WAITING ticks
        else (a, {})
      else StatusCheck.report a a.raceStatus ticks := by
  unfold StatusCheck.settle StatusCheck.overlay
  by_cases h1 : a.raceStatus = RACING ∧ anyCarsOffTrack a = true
  · rw [if_pos h1, if_pos h1]
    by_cases h2 : a.lastRaceStatus = OFF_TRACK
    · simp [h2]
    · have h2s : ¬ (OFF_TRACK = a.lastRaceStatus) := fun c => h2 c.symm
      simp [h2, h2s]
  · rw [if_neg h1, if_neg h1]
    by_cases h2 : a.raceStatus = a.lastRaceStatus
    · have h2n : ¬ (a.raceStatus ≠ a.lastRaceStatus) := fun c => c h2
      simp only [if_neg h2n, if_pos h2]
    · simp only [ne_eq, h2, not_false_eq_true, if_true, if_false]

/-- The stage the part after the auto-advance leaves behind. -/
theorem settle_raceStatus (a : RaceController) (ticks : Int) :
    (StatusCheck.settle a ticks).1.raceStatus =
      if StatusCheck.settleTimedOut a ticks = true then WAITING else a.raceStatus := by
  rw [settle_eq]
  unfold StatusCheck.settleTimedOut StatusCheck.overlay
  by_cases h1 : a.raceStatus = RACING ∧ anyCarsOffTrack a = true
  · rw [if_pos h1, if_pos h1]
    by_cases h2 : a.lastRaceStatus = OFF_TRACK
    · by_cases h3 : (ticks - a.lastStatusChangeDateTime) % dwordModulus > 10000
      · simp [StatusCheck.report, h2, h3]
      · simp [StatusCheck.report, h2, h3, h1.1]
    · have h2s : ¬ (OFF_TRACK = a.lastRaceStatus) := fun c => h2 c.symm
      simp [StatusCheck.report, h2, h2s]
  · rw [if_neg h1, if_neg h1]
    by_cases h2 : a.raceStatus = a.lastRaceStatus
    · rw [if_pos h2]
      by_cases h3 : a.raceStatus = OFF_TRACK ∧
          (ticks - a.lastStatusChangeDateTime) % dwordModulus > 10000
      · rw [if_pos h3]
        have h4 : a.lastRaceStatus = OFF_TRACK := h2 ▸ h3.1
        simp [StatusCheck.report, h3.1, h3.2, h4]
      · rw [if_neg h3]
        simp only [decide_eq_true_eq, Bool.and_eq_true, Bool.decide_and]
        rw [← h2]
        simp only [true_and, h3, if_false]
    · rw [if_neg h2]
      simp [StatusCheck.report, h2]

/-- The stage a status check leaves behind: `WAITING` if the off-track timeout
fired, the stage after the auto-advance otherwise. -/
theorem StatusCheck_raceStatus (s : RaceController) (ticks : Int) :
    (StatusCheck s ticks).1.raceStatus =
      if StatusCheck.timedOut s ticks = true then WAITING
      else (StatusCheck.advance s ticks).raceStatus :=
  settle_raceStatus _ ticks

/-- The off-track timeout only fires when `OFF_TRACK` was the status reported
before and the stage after the auto-advance is `RACING` or `OFF_TRACK`. -/
theorem settleTimedOut_imp (a : RaceController) (ticks : Int)
    (h : StatusCheck.settleTimedOut a ticks = true) :
    a.lastRaceStatus = OFF_TRACK ∧ (a.raceStatus = RACING ∨ a.raceStatus = OFF_TRACK) ∧
      (ticks - a.lastStatusChangeDateTime) % dwordModulus > 10000 := by
  unfold StatusCheck.settleTimedOut StatusCheck.overlay at h
  by_cases h1 : a.raceStatus = RACING ∧ anyCarsOffTrack a = true
  · rw [if_pos h1] at h
    by_cases h2 : a.lastRaceStatus = OFF_TRACK
    · simp [h2] at h
      exact ⟨h2, Or.inl h1.1, h⟩
    · have h2s : ¬ (OFF_TRACK = a.lastRaceStatus) := fun c => h2 c.symm
      simp [h2, h2s] at h
  · rw [if_neg h1] at h
    simp only [decide_eq_true_eq, Bool.and_eq_true] at h
    exact ⟨h.1.1 ▸ h.1.2, Or.inr h.1.2, h.2⟩

/-- The auto-advance writes `raceStatus` and, on entering `RACING`, the fields
that `StartRace` resets; the record of the last reported status is not among
them. -/
theorem advance_frame (s : RaceController) (ticks : Int) :
    (StatusCheck.advance s ticks).lastRaceStatus = s.lastRaceStatus ∧
    (StatusCheck.advance s ticks).lastRaceStatusTicks = s.lastRaceStatusTicks ∧
    (StatusCheck.advance s ticks).lastStatusChangeDateTime = s.lastStatusChangeDateTime ∧
    (StatusCheck.advance s ticks).trackStatusId = s.trackStatusId := by
  unfold StatusCheck.advance
  by_cases h1 : s.raceStatus.ord < RACING.ord ∧
      (s.raceStatus = GO ∨ ticks ≥ s.lastRaceStatusTicks + ticksPerPreRaceStatus)
  · rw [if_pos h1]
    by_cases h2 : s.raceStatus.next = RACING
    · simp [StartRace, h2]
    · simp [h2]
  · rw [if_neg h1]
    simp

/-- Below `RACING` the next stage has the next ordinal. -/
theorem next_ord (r : RaceStatus) (h : r.ord < RACING.ord) : r.next.ord = r.ord + 1 := by
  cases r <;> simp [RaceStatus.ord] at h ⊢ <;> rfl

/-- What the auto-advance does to the stage of a pre-race controller. -/
theorem advance_pre_race_raceStatus (s : RaceController) (ticks : Int)
    (h : s.raceStatus.ord < RACING.ord) :
    (StatusCheck.advance s ticks).raceStatus =
      if s.raceStatus = GO ∨ 2000 ≤ ticks - s.lastRaceStatusTicks then s.raceStatus.next
      else s.raceStatus := by
  rw [advance_pre_race s ticks h]
  by_cases h1 : s.raceStatus = GO ∨ 2000 ≤ ticks - s.lastRaceStatusTicks
  · rw [if_pos h1, if_pos h1]
    by_cases h2 : s.raceStatus.next = RACING
    · rw [if_pos h2]; rfl
    · rw [if_neg h2]
  · rw [if_neg h1, if_neg h1]

/-- The overlay leaves the status reported before alone. -/
theorem overlay_lastRaceStatus (a : RaceController) (ticks : Int) :
    (StatusCheck.overlay a ticks).1.lastRaceStatus = a.lastRaceStatus := by
  unfold StatusCheck.overlay
  by_cases h1 : a.raceStatus = RACING ∧ anyCarsOffTrack a = true
  · rw [if_pos h1]
    by_cases h2 : a.lastRaceStatus = OFF_TRACK
    · simp [h2]
    · simp [h2]
  · rw [if_neg h1]

/-- A reportable status that differs from the one reported before is
reported. -/
theorem settle_changed (a : RaceController) (ticks : Int)
    (h : (StatusCheck.overlay a ticks).2 ≠ a.lastRaceStatus) :
    StatusCheck.settle a ticks =
      StatusCheck.report (StatusCheck.overlay a ticks).1 (StatusCheck.overlay a ticks).2
        ticks := by
  unfold StatusCheck.settle
  have h2 : (StatusCheck.overlay a ticks).2 ≠ (StatusCheck.overlay a ticks).1.lastRaceStatus := by
    rw [overlay_lastRaceStatus]; exact h
  simp only [if_pos h2]

/-- With an unchanged reportable status and no off-track timeout, the part
after the auto-advance does nothing. -/
theorem settle_unchanged (a : RaceController) (ticks : Int)
    (h : (StatusCheck.overlay a ticks).2 = a.lastRaceStatus)
    (hto : StatusCheck.settleTimedOut a ticks = false) :
    StatusCheck.settle a ticks = (a, {}) := by
  rw [settle_eq]
  unfold StatusCheck.settleTimedOut at hto
  unfold StatusCheck.overlay at h hto
  by_cases h1 : a.raceStatus = RACING ∧ anyCarsOffTrack a = true
  · rw [if_pos h1] at h hto
    rw [if_pos h1]
    have h2 : a.lastRaceStatus = OFF_TRACK := h.symm
    rw [if_pos h2]
    simp [h2] at hto
    have h3 : ¬ ((ticks - a.lastStatusChangeDateTime) % dwordModulus > 10000) := by
      intro c; exact absurd c (not_lt.mpr hto)
    rw [if_neg h3]
  · rw [if_neg h1] at h hto
    rw [if_neg h1, if_pos h]
    have h3 : ¬ (a.raceStatus = OFF_TRACK ∧
        (ticks - a.lastStatusChangeDateTime) % dwordModulus > 10000) := by
      rintro ⟨c1, c2⟩
      simp [← h, c1, c2] at hto
    rw [if_neg h3]

/-- Reporting a status writes the three fields of the last report only. -/
theorem report_frame (a : RaceController) (r : RaceStatus) (ticks : Int) :
    (StatusCheck.report a r ticks).1 =
      { a with lastStatusChangeDateTime := ticks, lastRaceStatusTicks := ticks,
               lastRaceStatus := r } := rfl

/-- Every reported status issues exactly one indicator command. -/
theorem indicatorFor_length (r : RaceStatus) (id : Int) : (indicatorFor r id).length = 1 := by
  cases r <;> rfl

/-- The part after the auto-advance leaves the race bookkeeping alone. -/
theorem settle_frame (a : RaceController) (ticks : Int) :
    (StatusCheck.settle a ticks).1.ticksRaceStarted = a.ticksRaceStarted ∧
    (StatusCheck.settle a ticks).1.carsFinished = a.carsFinished ∧
    (StatusCheck.settle a ticks).1.tracks = a.tracks ∧
    (StatusCheck.settle a ticks).1.trackStatusId = a.trackStatusId := by
  rw [settle_eq]
  split_ifs <;> simp [StatusCheck.report]

/-- C5 (amended): for a status check entered below `RACING`, lines 163-173
advance the stage by exactly one ordinal iff the stage is `GO` or at least 2000
ticks have elapsed since the last recorded stage change; when neither holds
the status check leaves the stage as it was, and when one holds and the
status reported before is not `OFF_TRACK`, the advanced stage is the stage
when the status check returns. -/
theorem StatusCheck_advance_iff (s : RaceController) (ticks : Int)
    (h : s.raceStatus.ord < RACING.ord) :
    ((StatusCheck.advance s ticks).raceStatus.ord = s.raceStatus.ord + 1 ↔
      (s.raceStatus = GO ∨ 2000 ≤ ticks - s.lastRaceStatusTicks)) ∧
    (¬ (s.raceStatus = GO ∨ 2000 ≤ ticks - s.lastRaceStatusTicks) →
      (StatusCheck s ticks).1.raceStatus = s.raceStatus) ∧
    ((s.raceStatus = GO ∨ 2000 ≤ ticks - s.lastRaceStatusTicks) →
      s.lastRaceStatus ≠ OFF_TRACK →
      (StatusCheck s ticks).1.raceStatus.ord = s.raceStatus.ord + 1) := by
  have hadv := advance_pre_race_raceStatus s ticks h
  have hfr := advance_frame s ticks
  have hn := next_ord s.raceStatus h
  refine ⟨?_, ?_, ?_⟩
  · rw [hadv]
    constructor
    · intro e
      by_contra hc
      rw [if_neg hc] at e
      omega
    · intro hc
      rw [if_pos hc]
      exact hn
  · intro hc
    rw [StatusCheck_raceStatus, hadv, if_neg hc]
    have hto : ¬ (StatusCheck.timedOut s ticks = true) := by
      intro c
      have k := (settleTimedOut_imp _ ticks c).2.1
      rw [hadv, if_neg hc] at k
      rcases k with k | k <;> rw [k] at h <;> simp [RaceStatus.ord] at h
    rw [if_neg hto]
  · intro hc hl
    rw [StatusCheck_raceStatus, hadv, if_pos hc]
    have hto : ¬ (StatusCheck.timedOut s ticks = true) := by
      intro c
      have k := (settleTimedOut_imp _ ticks c).1
      rw [hfr.1] at k
      exact hl k
    rw [if_neg hto]
    exact hn

/-- A stage recorded at tick 0 and checked at tick 2000, and the last stage
before the race. -/
theorem StatusCheck_advance_iff_witness :
    (sample PREP_READY_TO_START).raceStatus.ord < RACING.ord ∧
    (StatusCheck (sample PREP_READY_TO_START) 2000).1.raceStatus.ord =
      (sample PREP_READY_TO_START).raceStatus.ord + 1 ∧
    (StatusCheck (sample PREP_READY_TO_START) 1999).1.raceStatus = PREP_READY_TO_START :=
  ⟨by decide,
   (StatusCheck_advance_iff (sample PREP_READY_TO_START) 2000 (by decide)).2.2
     (Or.inr (by decide)) (by decide),
   (StatusCheck_advance_iff (sample PREP_READY_TO_START) 1999 (by decide)).2.1
     (by decide)⟩

/-- Why the last part of the C5 statement asks that `OFF_TRACK` was not the
status reported before: a controller in `GO` whose last report was `OFF_TRACK`
at tick 0, with a lane off the track, is advanced to `RACING` by the check at
tick 10001 and reset to `WAITING` by the off-track timeout of the same check. -/
theorem StatusCheck_GO_then_timeout_example :
    (StatusCheck.advance { sampleOffTrack with raceStatus := GO } 10001).raceStatus = RACING ∧
    StatusCheck.timedOut { sampleOffTrack with raceStatus := GO } 10001 = true ∧
    (StatusCheck { sampleOffTrack with raceStatus := GO } 10001).1.raceStatus = WAITING := by
  decide

/-- C5, as stated, fails: a controller in `PREP_READY_TO_START`, a stage other
than `GO`, whose stage change was recorded at tick 0 and that is checked at
tick 2000, so after an elapsed time of exactly 2000, which does not exceed
2000, is advanced to `READY_TO_START`. -/
theorem StatusCheck_advances_at_exactly_2000 :
    (sample PREP_READY_TO_START).raceStatus.ord < RACING.ord ∧
    (sample PREP_READY_TO_START).raceStatus ≠ GO ∧
    2000 - (sample PREP_READY_TO_START).lastRaceStatusTicks = 2000 ∧
    ¬ (2000 - (sample PREP_READY_TO_START).lastRaceStatusTicks > 2000) ∧
    (StatusCheck (sample PREP_READY_TO_START) 2000).1.raceStatus = READY_TO_START := by
  decide

/-- A run of status checks that each leave the controller alone leaves it
alone. -/
theorem statusChecks_fixed (s : RaceController) (early : List Int)
    (h : ∀ t ∈ early, StatusCheck s t = (s, {})) : statusChecks s early = s := by
  induction early with
  | nil => rfl
  | cons t rest ih =>
    have e : StatusCheck s t = (s, {}) := h t (List.mem_cons_self t rest)
    simp only [statusChecks, e]
    exact ih (fun u hu => h u (List.mem_cons_of_mem t hu))

/-- A status check of a controller that reported `PREP_READY_TO_START` and is
still in that stage does nothing before 2000 ticks have elapsed. -/
theorem StatusCheck_prep_early (s : RaceController) (ticks : Int)
    (h1 : s.raceStatus = PREP_READY_TO_START) (h2 : s.lastRaceStatus = PREP_READY_TO_START)
    (h3 : ticks < s.lastRaceStatusTicks + 2000) : StatusCheck s ticks = (s, {}) := by
  have hlt : s.raceStatus.ord < RACING.ord := by rw [h1]; decide
  have hc : ¬ (s.raceStatus = GO ∨ 2000 ≤ ticks - s.lastRaceStatusTicks) := by
    rintro (c | c)
    · rw [h1] at c; exact absurd c (by decide)
    · omega
  have ha : StatusCheck.advance s ticks = s := by
    rw [advance_pre_race s ticks hlt, if_neg hc]
  have hcond : ¬ (s.raceStatus = RACING ∧ anyCarsOffTrack s = true) := by
    rintro ⟨c, _⟩
    rw [h1] at c; exact absurd c (by decide)
  have hoff : ¬ (s.raceStatus = OFF_TRACK ∧
      (ticks - s.lastStatusChangeDateTime) % dwordModulus > 10000) := by
    rintro ⟨c, _⟩
    rw [h1] at c; exact absurd c (by decide)
  unfold StatusCheck
  rw [ha, settle_eq, if_neg hcond, if_pos (h1.trans h2.symm), if_neg hoff]

/-- C6: with `PREP_READY_TO_START` recorded at tick `T`, a status check at a
tick before `T + 2000` does nothing, so that after any run of such checks the
stage is still `PREP_READY_TO_START`, and the first status check at a tick
from `T + 2000` on sets the stage to `READY_TO_START`. -/
theorem StatusCheck_prep_auto_advance (s : RaceController) (T : Int)
    (h1 : s.raceStatus = PREP_READY_TO_START) (h2 : s.lastRaceStatus = PREP_READY_TO_START)
    (h3 : s.lastRaceStatusTicks = T) :
    (∀ ticks, ticks < T + 2000 → StatusCheck s ticks = (s, {})) ∧
    (∀ early : List Int, (∀ t ∈ early, t < T + 2000) →
      (statusChecks s early).raceStatus = PREP_READY_TO_START ∧
      ∀ ticks, T + 2000 ≤ ticks →
        (StatusCheck (statusChecks s early) ticks).1.raceStatus = READY_TO_START) := by
  have hearly : ∀ ticks, ticks < T + 2000 → StatusCheck s ticks = (s, {}) := by
    intro ticks ht
    exact StatusCheck_prep_early s ticks h1 h2 (by rw [h3]; exact ht)
  refine ⟨hearly, ?_⟩
  intro early he
  have hfix : statusChecks s early = s :=
    statusChecks_fixed s early (fun t ht => hearly t (he t ht))
  rw [hfix]
  refine ⟨h1, ?_⟩
  intro ticks ht
  have hlt : s.raceStatus.ord < RACING.ord := by rw [h1]; decide
  have hc : s.raceStatus = GO ∨ 2000 ≤ ticks - s.lastRaceStatusTicks := Or.inr (by omega)
  have hto : ¬ (StatusCheck.timedOut s ticks = true) := by
    intro c
    have k := (settleTimedOut_imp _ ticks c).1
    rw [(advance_frame s ticks).1, h2] at k
    exact absurd k (by decide)
  rw [StatusCheck_raceStatus, if_neg hto, advance_pre_race_raceStatus s ticks hlt, if_pos hc, h1]
  rfl

/-- Recorded at tick 0: checks at ticks 500 and 1999 change nothing, the check
at tick 2000 advances. -/
theorem StatusCheck_prep_auto_advance_witness :
    (sample PREP_READY_TO_START).raceStatus = PREP_READY_TO_START ∧
    (sample PREP_READY_TO_START).lastRaceStatus = PREP_READY_TO_START ∧
    (sample PREP_READY_TO_START).lastRaceStatusTicks = 0 ∧
    (statusChecks (sample PREP_READY_TO_START) [500, 1999]).raceStatus
      = PREP_READY_TO_START ∧
    (StatusCheck (statusChecks (sample PREP_READY_TO_START) [500, 1999]) 2000).1.raceStatus
      = READY_TO_START :=
  ⟨rfl, rfl, rfl,
   ((StatusCheck_prep_auto_advance (sample PREP_READY_TO_START) 0 rfl rfl rfl).2
      [500, 1999] (by decide)).1,
   ((StatusCheck_prep_auto_advance (sample PREP_READY_TO_START) 0 rfl rfl rfl).2
      [500, 1999] (by decide)).2 2000 (by decide)⟩

/-! ## Off-track overlay and timeout -/

/-- C7 (amended): with `OFF_TRACK` reported, the stage `RACING`, a lane still
off the track and the last status change recorded at tick `T0`, a status check
at a tick `t` whose distance `t - T0` is above 10000 (and within the range of
the 32-bit tick counter) sets both the stage and the reported status to
`WAITING`; a status check at a distance from 0 to 10000, exactly 10000
included, changes nothing and has no effects. -/
theorem StatusCheck_offtrack_timeout (s : RaceController) (ticks : Int)
    (h1 : s.raceStatus = RACING) (h2 : s.lastRaceStatus = OFF_TRACK)
    (h3 : anyCarsOffTrack s = true) :
    (10000 < ticks - s.lastStatusChangeDateTime →
      ticks - s.lastStatusChangeDateTime < 4294967296 →
      (StatusCheck s ticks).1.raceStatus = WAITING ∧
      (StatusCheck s ticks).1.lastRaceStatus = WAITING) ∧
    (0 ≤ ticks - s.lastStatusChangeDateTime →
      ticks - s.lastStatusChangeDateTime ≤ 10000 →
      StatusCheck s ticks = (s, {})) := by
  have ha : StatusCheck.advance s ticks = s :=
    advance_of_not_pre_race s ticks (by rw [h1])
  constructor
  · intro h4 h5
    have hd : (ticks - s.lastStatusChangeDateTime) % dwordModulus > 10000 := by
      unfold dwordModulus
      omega
    unfold StatusCheck
    rw [ha, settle_eq, if_pos ⟨h1, h3⟩, if_pos h2, if_pos hd]
    exact ⟨rfl, rfl⟩
  · intro h4 h5
    have hd : ¬ ((ticks - s.lastStatusChangeDateTime) % dwordModulus > 10000) := by
      unfold dwordModulus
      omega
    unfold StatusCheck
    rw [ha, settle_eq, if_pos ⟨h1, h3⟩, if_pos h2, if_neg hd]

/-- Off the track since tick 0: the check at tick 10001 resets the race, the
checks at ticks 9000 and 10000 do nothing. -/
theorem StatusCheck_offtrack_timeout_witness :
    sampleOffTrack.raceStatus = RACING ∧ sampleOffTrack.lastRaceStatus = OFF_TRACK ∧
    anyCarsOffTrack sampleOffTrack = true ∧
    (10000 : Int) < 10001 - sampleOffTrack.lastStatusChangeDateTime ∧
    (10001 : Int) - sampleOffTrack.lastStatusChangeDateTime < 4294967296 ∧
    ((StatusCheck sampleOffTrack 10001).1.raceStatus = WAITING ∧
      (StatusCheck sampleOffTrack 10001).1.lastRaceStatus = WAITING) ∧
    StatusCheck sampleOffTrack 9000 = (sampleOffTrack, {}) ∧
    StatusCheck sampleOffTrack 10000 = (sampleOffTrack, {}) :=
  ⟨rfl, rfl, rfl, by decide, by decide,
   (StatusCheck_offtrack_timeout sampleOffTrack 10001 rfl rfl rfl).1 (by decide) (by decide),
   (StatusCheck_offtrack_timeout sampleOffTrack 9000 rfl rfl rfl).2 (by decide) (by decide),
   (StatusCheck_offtrack_timeout sampleOffTrack 10000 rfl rfl rfl).2 (by decide) (by decide)⟩

/-- C7, as stated, fails: `OFF_TRACK` was reported at tick 0, the stage is
`RACING` and lane 2 is still off the track; the status check at tick 10000,
an elapsed time of exactly 10000, changes nothing: the stage stays `RACING`
and the reported status `OFF_TRACK`. -/
theorem StatusCheck_no_timeout_at_exactly_10000 :
    sampleOffTrack.raceStatus = RACING ∧ sampleOffTrack.lastRaceStatus = OFF_TRACK ∧
    sampleOffTrack.lastStatusChangeDateTime = 0 ∧
    anyCarsOffTrack sampleOffTrack = true ∧
    (10000 : Int) - sampleOffTrack.lastStatusChangeDateTime ≥ 10000 ∧
    (StatusCheck sampleOffTrack 10000).1.raceStatus = RACING ∧
    (StatusCheck sampleOffTrack 10000).1.lastRaceStatus = OFF_TRACK ∧
    StatusCheck sampleOffTrack 10000 = (sampleOffTrack, {}) := by
  decide

/-- C8: in stage `RACING`, a status check made while a lane is off the track
and the off-track timeout does not fire records `OFF_TRACK` as the reported
status and leaves the stage at `RACING`; a status check that follows it with
no lane off the track records `RACING` as the reported status, again with the
stage at `RACING`, and with the race start tick, the finished-car counter and
the lanes as they were. -/
theorem StatusCheck_offtrack_overlay (s : RaceController) (t1 : Int)
    (h1 : s.raceStatus = RACING) (h2 : anyCarsOffTrack s = true)
    (h3 : StatusCheck.timedOut s t1 = false) :
    (StatusCheck s t1).1.lastRaceStatus = OFF_TRACK ∧
    (StatusCheck s t1).1.raceStatus = RACING ∧
    ∀ (lanes : List Track) (t2 : Int),
      anyCarsOffTrack { (StatusCheck s t1).1 with tracks := lanes } = false →
      (StatusCheck { (StatusCheck s t1).1 with tracks := lanes } t2).1.lastRaceStatus = RACING ∧
      (StatusCheck { (StatusCheck s t1).1 with tracks := lanes } t2).1.raceStatus = RACING ∧
      (StatusCheck { (StatusCheck s t1).1 with tracks := lanes } t2).1.ticksRaceStarted
        = s.ticksRaceStarted ∧
      (StatusCheck { (StatusCheck s t1).1 with tracks := lanes } t2).1.carsFinished
        = s.carsFinished ∧
      (StatusCheck { (StatusCheck s t1).1 with tracks := lanes } t2).1.tracks = lanes := by
  have ha : StatusCheck.advance s t1 = s :=
    advance_of_not_pre_race s t1 (by rw [h1])
  have hto : ¬ (StatusCheck.timedOut s t1 = true) := by rw [h3]; decide
  have hrs : (StatusCheck s t1).1.raceStatus = RACING := by
    rw [StatusCheck_raceStatus, if_neg hto, ha, h1]
  have hfr := settle_frame s t1
  have hlast : (StatusCheck s t1).1.lastRaceStatus = OFF_TRACK := by
    unfold StatusCheck
    rw [ha]
    by_cases hl : s.lastRaceStatus = OFF_TRACK
    · have hov : (StatusCheck.overlay s t1).2 = s.lastRaceStatus := by
        unfold StatusCheck.overlay
        rw [if_pos ⟨h1, h2⟩, hl]
      have hto2 : StatusCheck.settleTimedOut s t1 = false := by
        have := h3
        unfold StatusCheck.timedOut at this
        rw [ha] at this
        exact this
      rw [settle_unchanged s t1 hov hto2]
      exact hl
    · rw [settle_eq, if_pos ⟨h1, h2⟩, if_neg hl]
      rfl
  refine ⟨hlast, hrs, ?_⟩
  intro lanes t2 hoff
  have hs1 : (StatusCheck s t1).1.ticksRaceStarted = s.ticksRaceStarted ∧
      (StatusCheck s t1).1.carsFinished = s.carsFinished := by
    unfold StatusCheck
    rw [ha]
    exact ⟨hfr.1, hfr.2.1⟩
  generalize (StatusCheck s t1).1 = s1 at hlast hrs hoff hs1 ⊢
  have hb : StatusCheck.advance { s1 with tracks := lanes } t2 = { s1 with tracks := lanes } :=
    advance_of_not_pre_race _ t2 (by show RACING.ord ≤ s1.raceStatus.ord; rw [hrs])
  have hcond : ¬ (({ s1 with tracks := lanes } : RaceController).raceStatus = RACING ∧
      anyCarsOffTrack { s1 with tracks := lanes } = true) := by
    rintro ⟨_, c⟩
    rw [hoff] at c
    exact absurd c (by decide)
  have hne : ¬ (({ s1 with tracks := lanes } : RaceController).raceStatus =
      ({ s1 with tracks := lanes } : RaceController).lastRaceStatus) := by
    show ¬ (s1.raceStatus = s1.lastRaceStatus)
    rw [hrs, hlast]
    decide
  unfold StatusCheck
  rw [hb, settle_eq, if_neg hcond, if_neg hne]
  exact ⟨hrs, hrs, hs1.1, hs1.2, rfl⟩

/-- Lane 2 leaves the track during the race and comes back. -/
theorem StatusCheck_offtrack_overlay_witness :
    ({ sampleOffTrack with lastRaceStatus := RACING } : RaceController).raceStatus = RACING ∧
    anyCarsOffTrack { sampleOffTrack with lastRaceStatus := RACING } = true ∧
    StatusCheck.timedOut { sampleOffTrack with lastRaceStatus := RACING } 700 = false ∧
    (StatusCheck { sampleOffTrack with lastRaceStatus := RACING } 700).1.lastRaceStatus
      = OFF_TRACK ∧
    (StatusCheck { sampleOffTrack with lastRaceStatus := RACING } 700).1.raceStatus = RACING ∧
    (StatusCheck
      { (StatusCheck { sampleOffTrack with lastRaceStatus := RACING } 700).1 with
        tracks := [lane 1 1, lane 2 1] } 900).1.lastRaceStatus = RACING :=
  ⟨rfl, rfl, by decide,
   (StatusCheck_offtrack_overlay { sampleOffTrack with lastRaceStatus := RACING } 700
      rfl rfl (by decide)).1,
   (StatusCheck_offtrack_overlay { sampleOffTrack with lastRaceStatus := RACING } 700
      rfl rfl (by decide)).2.1,
   ((StatusCheck_offtrack_overlay { sampleOffTrack with lastRaceStatus := RACING } 700
      rfl rfl (by decide)).2.2 [lane 1 1, lane 2 1] 900 (by decide)).1⟩

/-! ## Telemetry dedup -/

/-- C9: a status check whose reportable status equals the one reported before,
and whose off-track timeout does not fire, sends no message, issues no
indicator command, logs nothing and leaves the recorded status and times
(`lastRaceStatus`, `lastRaceStatusTicks`, `lastStatusChangeDateTime`) as they
were; a status check whose reportable status differs
from the one reported before sends exactly one message, the "status" message
without lane, issues exactly one indicator command and records the reportable
status as reported. -/
theorem StatusCheck_dedup (s : RaceController) (ticks : Int) :
    (StatusCheck.reportable s ticks = s.lastRaceStatus →
      StatusCheck.timedOut s ticks = false →
      (StatusCheck s ticks).2 = {} ∧
      (StatusCheck s ticks).1.lastRaceStatus = s.lastRaceStatus ∧
      (StatusCheck s ticks).1.lastRaceStatusTicks = s.lastRaceStatusTicks ∧
      (StatusCheck s ticks).1.lastStatusChangeDateTime = s.lastStatusChangeDateTime) ∧
    (StatusCheck.reportable s ticks ≠ s.lastRaceStatus →
      (StatusCheck s ticks).2.sent =
        [{ lane := none, key := "status",
           value := Payload.text (raceStatusNames.get? (StatusCheck.reportable s ticks).ord) }] ∧
      (StatusCheck s ticks).2.indicator.length = 1 ∧
      (StatusCheck s ticks).1.lastRaceStatus = StatusCheck.reportable s ticks) := by
  have hfr := advance_frame s ticks
  constructor
  · intro hsame hto
    have h1 : (StatusCheck.overlay (StatusCheck.advance s ticks) ticks).2 =
        (StatusCheck.advance s ticks).lastRaceStatus := by
      rw [hfr.1]; exact hsame
    have e : StatusCheck s ticks = (StatusCheck.advance s ticks, {}) :=
      settle_unchanged _ ticks h1 hto
    rw [e]
    exact ⟨rfl, hfr.1, hfr.2.1, hfr.2.2.1⟩
  · intro hdiff
    have h1 : (StatusCheck.overlay (StatusCheck.advance s ticks) ticks).2 ≠
        (StatusCheck.advance s ticks).lastRaceStatus := by
      rw [hfr.1]; exact hdiff
    have e : StatusCheck s ticks =
        StatusCheck.report (StatusCheck.overlay (StatusCheck.advance s ticks) ticks).1
          (StatusCheck.overlay (StatusCheck.advance s ticks) ticks).2 ticks :=
      settle_changed _ ticks h1
    rw [e]
    refine ⟨rfl, ?_, rfl⟩
    exact indicatorFor_length _ _

/-- The check at tick 1999 of a stage recorded at tick 0 is silent; the check at
tick 2000 reports the new stage once. -/
theorem StatusCheck_dedup_witness :
    StatusCheck.reportable (sample PREP_READY_TO_START) 1999
      = (sample PREP_READY_TO_START).lastRaceStatus ∧
    StatusCheck.timedOut (sample PREP_READY_TO_START) 1999 = false ∧
    (StatusCheck (sample PREP_READY_TO_START) 1999).2 = {} ∧
    StatusCheck.reportable (sample PREP_READY_TO_START) 2000
      ≠ (sample PREP_READY_TO_START).lastRaceStatus ∧
    (StatusCheck (sample PREP_READY_TO_START) 2000).2.sent.length = 1 ∧
    (StatusCheck (sample PREP_READY_TO_START) 2000).2.indicator.length = 1 :=
  ⟨by decide, by decide,
   ((StatusCheck_dedup (sample PREP_READY_TO_START) 1999).1 (by decide) (by decide)).1,
   by decide,
   congrArg List.length
     ((StatusCheck_dedup (sample PREP_READY_TO_START) 2000).2 (by decide)).1,
   ((StatusCheck_dedup (sample PREP_READY_TO_START) 2000).2 (by decide)).2.1⟩

/-! ## Lane callbacks -/

/-- C12: `TrackReady` adds exactly 1 to `tracksReady` and issues exactly one
indicator command, a blip, when `tracksReady < trackCount`; otherwise it
changes nothing and issues no indicator command; so `tracksReady ≤ trackCount`
is kept by it. -/
theorem TrackReady_counts_up_to_trackCount (s : RaceController) (track : Track) :
    (s.tracksReady < s.trackCount →
      TrackReady s track =
        ({ s with tracksReady := s.tracksReady + 1 },
         { indicator := [IndicatorCmd.Blip 125 Color.GREEN] })) ∧
    (¬ (s.tracksReady < s.trackCount) → TrackReady s track = (s, {})) ∧
    (s.tracksReady ≤ s.trackCount →
      (TrackReady s track).1.tracksReady ≤ (TrackReady s track).1.trackCount) := by
  refine ⟨?_, ?_, ?_⟩
  · intro h
    simp [TrackReady, h]
  · intro h
    simp [TrackReady, h]
  · intro h
    by_cases hlt : s.tracksReady < s.trackCount
    · simp only [TrackReady, if_pos hlt]
      omega
    · simp only [TrackReady, if_neg hlt]
      exact h

/-- Two lanes configured: the first two calls count, the third does nothing. -/
theorem TrackReady_counts_up_to_trackCount_witness :
    TrackReady (sample WAITING) (lane 1 0) =
      ({ sample WAITING with tracksReady := 1 },
       { indicator := [IndicatorCmd.Blip 125 Color.GREEN] }) ∧
    TrackReady { sample WAITING with tracksReady := 2 } (lane 1 0) =
      ({ sample WAITING with tracksReady := 2 }, {}) ∧
    (TrackReady { sample WAITING with tracksReady := 2 } (lane 1 0)).1.tracksReady ≤ 2 :=
  ⟨(TrackReady_counts_up_to_trackCount (sample WAITING) (lane 1 0)).1 (by decide),
   (TrackReady_counts_up_to_trackCount { sample WAITING with tracksReady := 2 }
      (lane 1 0)).2.1 (by decide),
   (TrackReady_counts_up_to_trackCount { sample WAITING with tracksReady := 2 }
      (lane 1 0)).2.2 (by decide)⟩

/-- A lane event never writes `raceLaps`. -/
theorem TrackLapChanged_raceLaps (s : RaceController) (track : Track) :
    (TrackLapChanged s track).1.raceLaps = s.raceLaps := by
  simp only [TrackLapChanged, TrackLapChanged.finalLap, TrackLapChanged.finish,
    TrackLapChanged.firstFinisher, TrackLapChanged.showWinner]
  split_ifs <;> rfl

/-- C16: a lap event of a lane whose lap count is neither `raceLaps - 1` nor
`raceLaps` changes no field of the controller, sends nothing and returns
false; and for every controller and lane the call returns true exactly when
the lap count equals `raceLaps`. -/
theorem TrackLapChanged_exact_thresholds (s : RaceController) (track : Track) :
    (track.lap ≠ s.raceLaps - 1 → track.lap ≠ s.raceLaps →
      TrackLapChanged s track = (s, {}, false)) ∧
    ((TrackLapChanged s track).2.2 = true ↔ track.lap = s.raceLaps) := by
  constructor
  · intro h1 h2
    simp [TrackLapChanged, TrackLapChanged.finalLap, TrackLapChanged.finish, h1, h2]
  · have e : (TrackLapChanged s track).2.2 =
        decide (track.lap = (TrackLapChanged s track).1.raceLaps) := rfl
    rw [e, TrackLapChanged_raceLaps]
    simp

/-- Three laps to race: a lane at lap 1 or at lap 5 is ignored, a lane at lap 3
is told it has finished. -/
theorem TrackLapChanged_exact_thresholds_witness :
    TrackLapChanged (sample RACING) (lane 1 1) = (sample RACING, {}, false) ∧
    TrackLapChanged (sample FINAL_LAP) (lane 1 5) = (sample FINAL_LAP, {}, false) ∧
    (TrackLapChanged (sample RACING) (lane 1 3)).2.2 = true :=
  ⟨(TrackLapChanged_exact_thresholds (sample RACING) (lane 1 1)).1 (by decide) (by decide),
   (TrackLapChanged_exact_thresholds (sample FINAL_LAP) (lane 1 5)).1 (by decide) (by decide),
   (TrackLapChanged_exact_thresholds (sample RACING) (lane 1 3)).2.mpr rfl⟩

/-! ## Racing queries -/

/-- C15: `IsRacing` is true exactly for the stages ranked from `RACING` to
`WINNER`, that is for `RACING`, `OFF_TRACK`, `FINAL_LAP` and `WINNER` and for
no other stage, `SHOW_WINNER` and the pre-race stages included; and whenever
`IsRacing` is true, `IsRacingOrPostRace` is true. -/
theorem IsRacing_range (s : RaceController) (ticks : Int) :
    (IsRacing s = true ↔ RACING.ord ≤ s.raceStatus.ord ∧ s.raceStatus.ord ≤ WINNER.ord) ∧
    (IsRacing s = true ↔
      s.raceStatus = RACING ∨ s.raceStatus = OFF_TRACK ∨ s.raceStatus = FINAL_LAP ∨
        s.raceStatus = WINNER) ∧
    (s.raceStatus = SHOW_WINNER → IsRacing s = false) ∧
    (s.raceStatus.ord < RACING.ord → IsRacing s = false) ∧
    (IsRacing s = true → IsRacingOrPostRace s ticks = true) := by
  cases hr : s.raceStatus <;> simp [IsRacing, IsRacingOrPostRace, RaceStatus.ord, hr]

/-- The four racing stages, the stage after them and a pre-race stage. -/
theorem IsRacing_range_witness :
    IsRacing (sample OFF_TRACK) = true ∧ IsRacing (sample FINAL_LAP) = true ∧
    IsRacing (sample SHOW_WINNER) = false ∧ IsRacing (sample GO) = false ∧
    IsRacingOrPostRace (sample OFF_TRACK) 0 = true :=
  ⟨(IsRacing_range (sample OFF_TRACK) 0).2.1.mpr (Or.inr (Or.inl rfl)),
   (IsRacing_range (sample FINAL_LAP) 0).2.1.mpr (Or.inr (Or.inr (Or.inl rfl))),
   (IsRacing_range (sample SHOW_WINNER) 0).2.2.1 rfl,
   (IsRacing_range (sample GO) 0).2.2.2.1 (by decide),
   (IsRacing_range (sample OFF_TRACK) 0).2.2.2.2
     ((IsRacing_range (sample OFF_TRACK) 0).2.1.mpr (Or.inr (Or.inl rfl)))⟩

/-! ## What a status check does, case by case -/

/-- The three things the auto-advance can do: nothing, start the race from
`GO`, or move a stage below `GO` to the next one. -/
theorem advance_cases (s : RaceController) (ticks : Int) :
    StatusCheck.advance s ticks = s ∨
    (s.raceStatus = GO ∧
      StatusCheck.advance s ticks = StartRace { s with raceStatus := RACING } ticks) ∨
    (s.raceStatus.ord < GO.ord ∧
      StatusCheck.advance s ticks = { s with raceStatus := s.raceStatus.next }) := by
  by_cases hlt : s.raceStatus.ord < RACING.ord
  · rw [advance_pre_race s ticks hlt]
    by_cases hc : s.raceStatus = GO ∨ 2000 ≤ ticks - s.lastRaceStatusTicks
    · rw [if_pos hc]
      by_cases hg : s.raceStatus = GO
      · right; left
        refine ⟨hg, ?_⟩
        have hn : s.raceStatus.next = RACING := by rw [hg]; rfl
        rw [if_pos hn, hn]
      · right; right
        have hn : ¬ (s.raceStatus.next = RACING) := by
          intro c
          have k := next_ord s.raceStatus hlt
          rw [c] at k
          cases hr : s.raceStatus <;> simp [hr, RaceStatus.ord] at k hg
        rw [if_neg hn]
        refine ⟨?_, rfl⟩
        cases hr : s.raceStatus <;> simp [hr, RaceStatus.ord] at hlt hg ⊢
    · left
      rw [if_neg hc]
  · left
    exact advance_of_not_pre_race s ticks (by omega)

/-- The overlay leaves the recorded lane alone. -/
theorem overlay_trackStatusId (a : RaceController) (ticks : Int) :
    (StatusCheck.overlay a ticks).1.trackStatusId = a.trackStatusId := by
  unfold StatusCheck.overlay
  by_cases h1 : a.raceStatus = RACING ∧ anyCarsOffTrack a = true
  · rw [if_pos h1]
    by_cases h2 : a.lastRaceStatus = OFF_TRACK
    · simp [h2]
    · simp [h2]
  · rw [if_neg h1]

/-- The effects of reporting a status. -/
theorem report_effects (a : RaceController) (r : RaceStatus) (ticks : Int) :
    (StatusCheck.report a r ticks).2 =
      { log := [LogCall.status (raceStatusNames.get? r.ord)]
        sent := [SendRace 0 "status" (Payload.text (raceStatusNames.get? r.ord))]
        indicator := indicatorFor r a.trackStatusId } := rfl

/-- The effects of a status check whose reportable status differs from the one
reported before. -/
theorem StatusCheck_changed_effects (s : RaceController) (ticks : Int)
    (h : StatusCheck.reportable s ticks ≠ s.lastRaceStatus) :
    (StatusCheck s ticks).2 =
      { log := [LogCall.status (raceStatusNames.get? (StatusCheck.reportable s ticks).ord)]
        sent := [SendRace 0 "status"
          (Payload.text (raceStatusNames.get? (StatusCheck.reportable s ticks).ord))]
        indicator := indicatorFor (StatusCheck.reportable s ticks) s.trackStatusId } := by
  have hfr := advance_frame s ticks
  have h1 : (StatusCheck.overlay (StatusCheck.advance s ticks) ticks).2 ≠
      (StatusCheck.advance s ticks).lastRaceStatus := by
    rw [hfr.1]; exact h
  have e : StatusCheck s ticks =
      StatusCheck.report (StatusCheck.overlay (StatusCheck.advance s ticks) ticks).1
        (StatusCheck.overlay (StatusCheck.advance s ticks) ticks).2 ticks :=
    settle_changed _ ticks h1
  rw [e, report_effects, overlay_trackStatusId, hfr.2.2.2]
  rfl

/-- The off-track timeout branch resets the stage and reports `WAITING`. -/
theorem settle_timedOut (a : RaceController) (ticks : Int)
    (h : StatusCheck.settleTimedOut a ticks = true) :
    StatusCheck.settle a ticks =
      StatusCheck.report { a with raceStatus := WAITING } WAITING ticks := by
  have k := settleTimedOut_imp a ticks h
  rcases k with ⟨k1, _, k3⟩
  rw [settle_eq]
  unfold StatusCheck.settleTimedOut StatusCheck.overlay at h
  by_cases h1 : a.raceStatus = RACING ∧ anyCarsOffTrack a = true
  · rw [if_pos h1, if_pos k1, if_pos k3]
  · rw [if_neg h1] at h
    simp only [decide_eq_true_eq, Bool.and_eq_true] at h
    rw [if_neg h1, if_pos h.1.1, if_pos ⟨h.1.2, k3⟩]

/-- The effects of a status check that takes the off-track timeout branch. -/
theorem StatusCheck_timedOut_effects (s : RaceController) (ticks : Int)
    (h : StatusCheck.timedOut s ticks = true) :
    (StatusCheck s ticks).2 =
      { log := [LogCall.status (raceStatusNames.get? WAITING.ord)]
        sent := [SendRace 0 "status" (Payload.text (raceStatusNames.get? WAITING.ord))]
        indicator := indicatorFor WAITING s.trackStatusId } := by
  have hfr := advance_frame s ticks
  have e : StatusCheck s ticks =
      StatusCheck.report { StatusCheck.advance s ticks with raceStatus := WAITING }
        WAITING ticks := settle_timedOut _ ticks h
  rw [e, report_effects]
  show _ = _
  rw [← hfr.2.2.2]

/-- A status check that neither sees a changed reportable status nor times
out has no effects. -/
theorem StatusCheck_silent (s : RaceController) (ticks : Int)
    (h : StatusCheck.reportable s ticks = s.lastRaceStatus)
    (hto : StatusCheck.timedOut s ticks = false) :
    StatusCheck s ticks = (StatusCheck.advance s ticks, {}) := by
  have hfr := advance_frame s ticks
  have h1 : (StatusCheck.overlay (StatusCheck.advance s ticks) ticks).2 =
      (StatusCheck.advance s ticks).lastRaceStatus := by
    rw [hfr.1]; exact h
  exact settle_unchanged _ ticks h1 hto

/-- A status check of a disqualified race has `DISQUALIFY` as reportable
status. -/
theorem reportable_DISQUALIFY (s : RaceController) (ticks : Int)
    (h : s.raceStatus = DISQUALIFY) : StatusCheck.reportable s ticks = DISQUALIFY := by
  have ha : StatusCheck.advance s ticks = s :=
    advance_of_not_pre_race s ticks (by rw [h]; decide)
  have hc : ¬ (s.raceStatus = RACING ∧ anyCarsOffTrack s = true) := by
    rintro ⟨c, _⟩
    rw [h] at c
    exact absurd c (by decide)
  unfold StatusCheck.reportable StatusCheck.overlay
  rw [ha, if_neg hc]
  exact h

/-! ## Telemetry of a disqualification -/

/-- C11: a `Disqualify` call hands no message to the telemetry channel, where
the claim requires exactly one: all it does to the outside world is the log
call "Disqualified". The lane events of `TrackLapChanged`, by contrast, each
send one message naming the lane: "finallap" on entering the final lap from
`RACING` and "winner" on the first finish from `FINAL_LAP`. -/
theorem Disqualify_sends_nothing (s : RaceController) (track : Track) :
    (Disqualify s track).2 = { log := [LogCall.line "Disqualified"] } ∧
    (Disqualify s track).2.sent = [] ∧
    (Disqualify s track).2.sent.length ≠ 1 ∧
    (s.raceStatus = RACING → track.lap = s.raceLaps - 1 →
      (TrackLapChanged s track).2.1.sent =
        [SendRace track.trackId "finallap" (Payload.num track.trackId)]) ∧
    (s.raceStatus = FINAL_LAP → s.carsFinished = 0 → track.lap = s.raceLaps →
      (TrackLapChanged s track).2.1.sent =
        [SendRace track.trackId "winner" (Payload.num track.trackId)]) := by
  refine ⟨rfl, rfl, ?_, ?_, ?_⟩
  · show ([] : List Message).length ≠ 1
    decide
  · intro hs hl
    have hne : ¬ (s.raceLaps - 1 = s.raceLaps) := by omega
    simp [TrackLapChanged, TrackLapChanged.finalLap, TrackLapChanged.finish, hs, hl, hne]
  · intro hs hc hl
    simp [TrackLapChanged, TrackLapChanged.finalLap, TrackLapChanged.finish,
      TrackLapChanged.firstFinisher, TrackLapChanged.showWinner, hs, hc, hl]

/-- The failing input of C11: lane 2 is disqualified during the race and nothing
is sent, while the same lane entering its final lap is announced. -/
theorem Disqualify_sends_nothing_witness :
    (Disqualify (sample RACING) (lane 2 1)).2.sent = [] ∧
    (Disqualify (sample RACING) (lane 2 1)).2.sent.length ≠ 1 ∧
    (sample RACING).raceStatus = RACING ∧ (lane 2 2).lap = (sample RACING).raceLaps - 1 ∧
    (TrackLapChanged (sample RACING) (lane 2 2)).2.1.sent =
      [{ lane := some 2, key := "finallap", value := Payload.num 2 }] :=
  ⟨(Disqualify_sends_nothing (sample RACING) (lane 2 1)).2.1,
   (Disqualify_sends_nothing (sample RACING) (lane 2 1)).2.2.1,
   rfl, rfl,
   (Disqualify_sends_nothing (sample RACING) (lane 2 2)).2.2.2.1 rfl rfl⟩

/-! ## Indicator table -/

/-- C13: the code's `switch` and the indicator table of the spec give the same
command for every status, and whenever a status check reports a status, a
changed reportable status or `WAITING` after the off-track timeout, the
indicator commands it issues are exactly that one command of the table. -/
theorem StatusCheck_indicator_table (s : RaceController) (ticks : Int) :
    (∀ (r : RaceStatus) (id : Int), indicatorFor r id = [specIndicator r id]) ∧
    (StatusCheck.reportable s ticks ≠ s.lastRaceStatus →
      (StatusCheck s ticks).2.indicator =
        [specIndicator (StatusCheck.reportable s ticks) s.trackStatusId]) ∧
    (StatusCheck.timedOut s ticks = true →
      (StatusCheck s ticks).2.indicator = [specIndicator WAITING s.trackStatusId]) := by
  have htab : ∀ (r : RaceStatus) (id : Int), indicatorFor r id = [specIndicator r id] := by
    intro r id
    cases r <;> simp [indicatorFor, specIndicator]
  refine ⟨htab, ?_, ?_⟩
  · intro h
    rw [StatusCheck_changed_effects s ticks h]
    exact htab _ _
  · intro h
    rw [StatusCheck_timedOut_effects s ticks h]
    exact htab WAITING s.trackStatusId

/-- The report of `READY_TO_START` at tick 2000, and of `SHOW_WINNER` with lane
2 recorded as the winner. -/
theorem StatusCheck_indicator_table_witness :
    (StatusCheck (sample PREP_READY_TO_START) 2000).2.indicator =
      [IndicatorCmd.Flash [Color.WHITE, Color.BLACK] 250] ∧
    (StatusCheck { sample SHOW_WINNER with lastRaceStatus := FINAL_LAP, trackStatusId := 2 }
        7).2.indicator =
      [IndicatorCmd.Flash [Color.GREEN, Color.BLACK, Color.GREEN, Color.BLACK, Color.BLACK,
        Color.BLACK] 125] ∧
    (StatusCheck sampleOffTrack 10001).2.indicator = [IndicatorCmd.SetColor Color.BLACK] :=
  ⟨(StatusCheck_indicator_table (sample PREP_READY_TO_START) 2000).2.1 (by decide),
   (StatusCheck_indicator_table
      { sample SHOW_WINNER with lastRaceStatus := FINAL_LAP, trackStatusId := 2 } 7).2.1
      (by decide),
   (StatusCheck_indicator_table sampleOffTrack 10001).2.2 (by decide)⟩

/-! ## Stage names -/

/-- What the table of names holds at the ordinal of each status: the name of
the stage ranked next for every stage below `SHOW_WINNER`, "Waiting" for
`SHOW_WINNER`, and nothing for `DISQUALIFY`, whose ordinal is the length of
the table. -/
theorem raceStatusNames_lookup (r : RaceStatus) :
    (r.ord < SHOW_WINNER.ord → raceStatusNames.get? r.ord = stageName r.next) ∧
    (r = SHOW_WINNER → raceStatusNames.get? r.ord = stageName WAITING) ∧
    (r = DISQUALIFY → raceStatusNames.get? r.ord = none) ∧
    (r ≠ DISQUALIFY → raceStatusNames.get? r.ord ≠ stageName r) ∧
    (r ≠ DISQUALIFY → r.ord < raceStatusNames.length) := by
  cases r <;>
    simp [raceStatusNames, RaceStatus.ord, RaceStatus.next, RaceStatus.ofOrd, stageName]

/-- With the numbering of the spec the parametrised status check is the
status check. -/
theorem StatusCheckWith_ord (s : RaceController) (ticks : Int) :
    StatusCheckWith RaceStatus.ord s ticks = StatusCheck s ticks := by
  have hn : ∀ r : RaceStatus, nextWith RaceStatus.ord r = r.next := by
    intro r
    cases r <;> rfl
  have ha : ∀ (a : RaceController) (t : Int),
      StatusCheck.advanceWith RaceStatus.ord a t = StatusCheck.advance a t := by
    intro a t
    unfold StatusCheck.advanceWith StatusCheck.advance
    rw [hn]
  have hs : ∀ (a : RaceController) (t : Int),
      StatusCheck.settleWith RaceStatus.ord a t = StatusCheck.settle a t := by
    intro a t
    rfl
  unfold StatusCheckWith StatusCheck
  rw [ha, hs]

/-- C20: after a `Disqualify` call, a status check whose last report was not
`DISQUALIFY` reports `DISQUALIFY` as a changed status, and the ordinal of
`DISQUALIFY`, 11, is not an index of the 11-entry table of names: the lookup
for the log line and for the "status" message finds no entry. -/
theorem Disqualify_status_name_out_of_table (s : RaceController) (track : Track)
    (ticks : Int) (h : s.lastRaceStatus ≠ DISQUALIFY) :
    StatusCheck.reportable (Disqualify s track).1 ticks = DISQUALIFY ∧
    StatusCheck.reportable (Disqualify s track).1 ticks
      ≠ (Disqualify s track).1.lastRaceStatus ∧
    raceStatusNames.length = 11 ∧
    ¬ ((StatusCheck.reportable (Disqualify s track).1 ticks).ord < raceStatusNames.length) ∧
    (StatusCheck (Disqualify s track).1 ticks).2.sent =
      [{ lane := none, key := "status", value := Payload.text none }] ∧
    (StatusCheck (Disqualify s track).1 ticks).2.log = [LogCall.status none] := by
  have hr : StatusCheck.reportable (Disqualify s track).1 ticks = DISQUALIFY :=
    reportable_DISQUALIFY _ ticks rfl
  have hne : StatusCheck.reportable (Disqualify s track).1 ticks ≠
      (Disqualify s track).1.lastRaceStatus := by
    rw [hr]
    exact fun c => h c.symm
  have e := StatusCheck_changed_effects (Disqualify s track).1 ticks hne
  rw [e, hr]
  exact ⟨rfl, fun c => h c.symm, rfl, by decide, rfl, rfl⟩

/-- The failing input of C20: lane 2 is disqualified during the race and the
status is checked at tick 40. -/
theorem Disqualify_status_name_out_of_table_witness :
    (sample RACING).lastRaceStatus ≠ DISQUALIFY ∧
    StatusCheck.reportable (Disqualify (sample RACING) (lane 2 1)).1 40 = DISQUALIFY ∧
    ¬ (DISQUALIFY.ord < raceStatusNames.length) ∧
    (StatusCheck (Disqualify (sample RACING) (lane 2 1)).1 40).2.sent =
      [{ lane := none, key := "status", value := Payload.text none }] :=
  ⟨by decide,
   (Disqualify_status_name_out_of_table (sample RACING) (lane 2 1) 40 (by decide)).1,
   by decide,
   (Disqualify_status_name_out_of_table (sample RACING) (lane 2 1) 40 (by decide)).2.2.2.2.1⟩

/-! ## Race start -/

/-- C17: a status check at tick `ticks` entered in `GO` advances the stage to
`RACING` and leaves `ticksRaceStarted = ticks` and `carsFinished = 0`, so that
`GetRaceTime f = f - ticks` for every `f`; the auto-advance enters `RACING` on
a call exactly when the call is entered in `GO`, and a status check entered in
any other stage leaves `ticksRaceStarted` and `carsFinished` as they were. -/
theorem StatusCheck_race_start (s : RaceController) (ticks : Int) :
    (s.raceStatus = GO →
      (StatusCheck.advance s ticks).raceStatus = RACING ∧
      (StatusCheck s ticks).1.ticksRaceStarted = ticks ∧
      (StatusCheck s ticks).1.carsFinished = 0 ∧
      ∀ f : Int, GetRaceTime (StatusCheck s ticks).1 f = f - ticks) ∧
    ((s.raceStatus ≠ RACING ∧ (StatusCheck.advance s ticks).raceStatus = RACING) ↔
      s.raceStatus = GO) ∧
    (s.raceStatus ≠ GO →
      (StatusCheck s ticks).1.ticksRaceStarted = s.ticksRaceStarted ∧
      (StatusCheck s ticks).1.carsFinished = s.carsFinished) := by
  have hfr := settle_frame (StatusCheck.advance s ticks) ticks
  have hgo : s.raceStatus = GO →
      StatusCheck.advance s ticks = StartRace { s with raceStatus := RACING } ticks := by
    intro hg
    rcases advance_cases s ticks with c | c | c
    · exfalso
      have hlt : s.raceStatus.ord < RACING.ord := by rw [hg]; decide
      have k := advance_pre_race_raceStatus s ticks hlt
      rw [if_pos (Or.inl hg), c, hg] at k
      exact absurd k (by decide)
    · exact c.2
    · exfalso
      have k := c.1
      rw [hg] at k
      exact absurd k (by decide)
  have hother : s.raceStatus ≠ GO →
      StatusCheck.advance s ticks = s ∨
        StatusCheck.advance s ticks = { s with raceStatus := s.raceStatus.next } ∧
          s.raceStatus.ord < GO.ord := by
    intro hg
    rcases advance_cases s ticks with c | c | c
    · exact Or.inl c
    · exact absurd c.1 hg
    · exact Or.inr ⟨c.2, c.1⟩
  refine ⟨?_, ?_, ?_⟩
  · intro hg
    have e := hgo hg
    have h1 : (StatusCheck s ticks).1.ticksRaceStarted = ticks := by
      unfold StatusCheck
      rw [hfr.1, e]
      rfl
    refine ⟨by rw [e]; rfl, h1, ?_, ?_⟩
    · unfold StatusCheck
      rw [hfr.2.1, e]
      rfl
    · intro f
      unfold GetRaceTime
      rw [h1]
  · constructor
    · rintro ⟨hn, ha⟩
      by_contra hg
      rcases hother hg with c | c
      · rw [c] at ha
        exact hn ha
      · rw [c.1] at ha
        have k := next_ord s.raceStatus (by have := c.2; simp [RaceStatus.ord] at this ⊢; omega)
        have ha2 : s.raceStatus.next = RACING := ha
        rw [ha2] at k
        have k2 := c.2
        simp [RaceStatus.ord] at k k2
        omega
    · intro hg
      refine ⟨by rw [hg]; decide, ?_⟩
      rw [hgo hg]
      rfl
  · intro hg
    unfold StatusCheck
    rw [hfr.1, hfr.2.1]
    rcases hother hg with c | c
    · rw [c]
      exact ⟨rfl, rfl⟩
    · rw [c.1]
      exact ⟨rfl, rfl⟩

/-- The race is started by the check at tick 777; the check at tick 2000 of a
stage before `GO` leaves the race bookkeeping alone. -/
theorem StatusCheck_race_start_witness :
    (StatusCheck { sample GO with carsFinished := 1 } 777).1.ticksRaceStarted = 777 ∧
    (StatusCheck { sample GO with carsFinished := 1 } 777).1.carsFinished = 0 ∧
    GetRaceTime (StatusCheck { sample GO with carsFinished := 1 } 777).1 1000 = 1000 - 777 ∧
    (StatusCheck { sample SET with carsFinished := 1 } 2000).1.carsFinished = 1 :=
  ⟨((StatusCheck_race_start { sample GO with carsFinished := 1 } 777).1 rfl).2.1,
   ((StatusCheck_race_start { sample GO with carsFinished := 1 } 777).1 rfl).2.2.1,
   ((StatusCheck_race_start { sample GO with carsFinished := 1 } 777).1 rfl).2.2.2 1000,
   ((StatusCheck_race_start { sample SET with carsFinished := 1 } 2000).2.2 (by decide)).2⟩

/-! ## Rank of the stage along a run -/

/-- No stage ranks above `DISQUALIFY`. -/
theorem ord_le_DISQUALIFY (r : RaceStatus) : r.ord ≤ DISQUALIFY.ord := by
  cases r <;> decide

/-- The auto-advance never lowers the rank of the stage. -/
theorem advance_ord_le (s : RaceController) (ticks : Int) :
    s.raceStatus.ord ≤ (StatusCheck.advance s ticks).raceStatus.ord := by
  rcases advance_cases s ticks with c | c | c
  · rw [c]
  · rw [c.2, c.1]
    show GO.ord ≤ RACING.ord
    decide
  · rw [c.2]
    have hlt : s.raceStatus.ord < RACING.ord := by
      have := c.1
      simp [RaceStatus.ord] at this ⊢
      omega
    have k := next_ord s.raceStatus hlt
    show s.raceStatus.ord ≤ s.raceStatus.next.ord
    omega

/-- The three things a lap event can do to the controller: nothing, enter the
final lap from `RACING`, or count a finisher from `FINAL_LAP`, after which the
stage is `SHOW_WINNER` if the counter is positive and `WINNER` if not. -/
theorem TrackLapChanged_cases (s : RaceController) (track : Track) :
    (TrackLapChanged s track).1 = s ∨
    (s.raceStatus = RACING ∧
      (TrackLapChanged s track).1 = { s with raceStatus := FINAL_LAP }) ∨
    (s.raceStatus = FINAL_LAP ∧
      (TrackLapChanged s track).1.carsFinished = s.carsFinished + 1 ∧
      ((0 < s.carsFinished + 1 ∧ (TrackLapChanged s track).1.raceStatus = SHOW_WINNER) ∨
       (¬ (0 < s.carsFinished + 1) ∧ (TrackLapChanged s track).1.raceStatus = WINNER))) := by
  by_cases h1 : s.raceStatus = RACING ∧ track.lap = s.raceLaps - 1
  · right; left
    refine ⟨h1.1, ?_⟩
    have hne : ¬ (s.raceLaps - 1 = s.raceLaps) := by omega
    simp [TrackLapChanged, TrackLapChanged.finalLap, TrackLapChanged.finish, h1.1, h1.2, hne]
  · by_cases h2 : s.raceStatus = FINAL_LAP ∧ track.lap = s.raceLaps
    · right; right
      refine ⟨h2.1, ?_⟩
      have hr : ¬ (s.raceStatus = RACING) := by rw [h2.1]; decide
      by_cases hc : 0 < s.carsFinished + 1
      · by_cases h1c : s.carsFinished + 1 = 1
        · simp [TrackLapChanged, TrackLapChanged.finalLap, TrackLapChanged.finish,
            TrackLapChanged.firstFinisher, TrackLapChanged.showWinner, h2.1, h2.2, hc, h1c]
        · simp [TrackLapChanged, TrackLapChanged.finalLap, TrackLapChanged.finish,
            TrackLapChanged.firstFinisher, TrackLapChanged.showWinner, h2.1, h2.2, hc, h1c]
      · have h1c : ¬ (s.carsFinished + 1 = 1) := by omega
        simp [TrackLapChanged, TrackLapChanged.finalLap, TrackLapChanged.finish,
          TrackLapChanged.firstFinisher, TrackLapChanged.showWinner, h2.1, h2.2, hc, h1c]
    · left
      simp only [TrackLapChanged, TrackLapChanged.finalLap, TrackLapChanged.finish,
        if_neg h1, if_neg h2]

/-- A lap event never lowers the rank of the stage. -/
theorem TrackLapChanged_ord_le (s : RaceController) (track : Track) :
    s.raceStatus.ord ≤ (TrackLapChanged s track).1.raceStatus.ord := by
  rcases TrackLapChanged_cases s track with c | c | c
  · rw [c]
  · rw [c.2, c.1]
    show RACING.ord ≤ FINAL_LAP.ord
    decide
  · rcases c.2.2 with d | d
    · rw [d.2, c.1]
      decide
    · rw [d.2, c.1]
      decide

/-- C18: with the stages ranked in the order of the spec, every operation,
a status check, a lap event, a readiness event, a disqualification or an
update of the lanes, leaves the rank of the stage at least what it was, unless
it is a status check that takes the off-track timeout branch and sets the
stage to `WAITING`. -/
theorem step_rank_monotone (s : RaceController) (e : Event) :
    s.raceStatus.ord ≤ (step s e).raceStatus.ord ∨
    (∃ ticks, e = Event.statusCheck ticks ∧ StatusCheck.timedOut s ticks = true ∧
      (step s e).raceStatus = WAITING) := by
  cases e with
  | statusCheck ticks =>
    by_cases hto : StatusCheck.timedOut s ticks = true
    · right
      refine ⟨ticks, rfl, hto, ?_⟩
      show (StatusCheck s ticks).1.raceStatus = WAITING
      rw [StatusCheck_raceStatus, if_pos hto]
    · left
      show s.raceStatus.ord ≤ (StatusCheck s ticks).1.raceStatus.ord
      rw [StatusCheck_raceStatus, if_neg hto]
      exact advance_ord_le s ticks
  | lapChanged track => exact Or.inl (TrackLapChanged_ord_le s track)
  | trackReady track =>
    left
    show s.raceStatus.ord ≤ (TrackReady s track).1.raceStatus.ord
    unfold TrackReady
    split_ifs <;> exact le_refl _
  | disqualify track => exact Or.inl (ord_le_DISQUALIFY s.raceStatus)
  | lanes tracks => exact Or.inl (le_refl _)

/-! ## Stages that are never stored -/

/-- The auto-advance keeps the stage invariant. -/
theorem advance_StageInvariant (s : RaceController) (ticks : Int)
    (h : StageInvariant s) : StageInvariant (StatusCheck.advance s ticks) := by
  rcases advance_cases s ticks with c | c | c
  · rw [c]; exact h
  · rw [c.2]
    refine ⟨?_, ?_, ?_⟩
    · show RACING ≠ OFF_TRACK
      decide
    · show RACING ≠ WINNER
      decide
    · intro _
      show (0 : Int) ≤ 0
      exact le_refl _
  · rw [c.2]
    have k := c.1
    refine ⟨?_, ?_, ?_⟩
    · show s.raceStatus.next ≠ OFF_TRACK
      cases hr : s.raceStatus <;> simp [hr, RaceStatus.ord, RaceStatus.next, RaceStatus.ofOrd] at k ⊢
    · show s.raceStatus.next ≠ WINNER
      cases hr : s.raceStatus <;> simp [hr, RaceStatus.ord, RaceStatus.next, RaceStatus.ofOrd] at k ⊢
    · intro hx
      exfalso
      have hx2 : s.raceStatus.next = RACING ∨ s.raceStatus.next = FINAL_LAP := hx
      cases hr : s.raceStatus <;>
        simp [hr, RaceStatus.ord, RaceStatus.next, RaceStatus.ofOrd] at k hx2

/-- Every operation keeps the stage invariant. -/
theorem step_StageInvariant (s : RaceController) (e : Event) (h : StageInvariant s) :
    StageInvariant (step s e) := by
  cases e with
  | statusCheck ticks =>
    have ha := advance_StageInvariant s ticks h
    have hfr := settle_frame (StatusCheck.advance s ticks) ticks
    have hrs := StatusCheck_raceStatus s ticks
    have hcf : (StatusCheck s ticks).1.carsFinished = (StatusCheck.advance s ticks).carsFinished :=
      hfr.2.1
    show StageInvariant (StatusCheck s ticks).1
    unfold StageInvariant
    by_cases hto : StatusCheck.timedOut s ticks = true
    · rw [if_pos hto] at hrs
      rw [hrs]
      refine ⟨by decide, by decide, ?_⟩
      intro hx
      rcases hx with hx | hx <;> exact absurd hx (by decide)
    · rw [if_neg hto] at hrs
      rw [hrs, hcf]
      exact ha
  | lapChanged track =>
    show StageInvariant (TrackLapChanged s track).1
    rcases TrackLapChanged_cases s track with c | c | c
    · rw [c]; exact h
    · rw [c.2]
      refine ⟨?_, ?_, ?_⟩
      · show FINAL_LAP ≠ OFF_TRACK
        decide
      · show FINAL_LAP ≠ WINNER
        decide
      · intro _
        exact h.2.2 (Or.inl c.1)
    · have hcf : 0 ≤ s.carsFinished := h.2.2 (Or.inr c.1)
      rcases c.2.2 with d | d
      · unfold StageInvariant
        rw [d.2]
        refine ⟨by decide, by decide, ?_⟩
        intro hx
        rcases hx with hx | hx <;> exact absurd hx (by decide)
      · exfalso
        exact d.1 (by omega)
  | trackReady track =>
    show StageInvariant (TrackReady s track).1
    unfold TrackReady
    split_ifs
    · exact h
    · exact h
  | disqualify track =>
    show StageInvariant (Disqualify s track).1
    unfold StageInvariant
    refine ⟨?_, ?_, ?_⟩
    · show DISQUALIFY ≠ OFF_TRACK
      decide
    · show DISQUALIFY ≠ WINNER
      decide
    · intro hx
      have hx2 : DISQUALIFY = RACING ∨ DISQUALIFY = FINAL_LAP := hx
      rcases hx2 with hx2 | hx2 <;> exact absurd hx2 (by decide)
  | lanes tracks => exact h

/-- Every run of operations keeps the stage invariant. -/
theorem run_StageInvariant (events : List Event) :
    ∀ s : RaceController, StageInvariant s → StageInvariant (run s events) := by
  induction events with
  | nil => intro s h; exact h
  | cons e rest ih =>
    intro s h
    exact ih (step s e) (step_StageInvariant s e h)

/-- Only `WINNER` is shown as white flashing every 50 ms. -/
theorem indicatorFor_WINNER_pattern (r : RaceStatus) (id : Int)
    (h : IndicatorCmd.Flash [Color.WHITE, Color.BLACK] 50 ∈ indicatorFor r id) :
    r = WINNER := by
  cases r <;> simp [indicatorFor] at h ⊢

/-- The reportable status of a controller that satisfies the stage invariant
is never `WINNER`. -/
theorem reportable_ne_WINNER (s : RaceController) (ticks : Int) (h : StageInvariant s) :
    StatusCheck.reportable s ticks ≠ WINNER := by
  have ha := advance_StageInvariant s ticks h
  unfold StatusCheck.reportable StatusCheck.overlay
  by_cases hc : (StatusCheck.advance s ticks).raceStatus = RACING ∧
      anyCarsOffTrack (StatusCheck.advance s ticks) = true
  · rw [if_pos hc]
    show OFF_TRACK ≠ WINNER
    decide
  · rw [if_neg hc]
    exact ha.2.1

/-- C19: in every state reached from a controller in `WAITING` by a run of
status checks, lap events, readiness events, disqualifications and lane
updates, the stored stage is neither `OFF_TRACK` nor `WINNER`; a lap event
received in such a state never returns with the stage at `WINNER`, and a
status check made in such a state never reports `WINNER` and never issues the
`WINNER` indicator pattern. -/
theorem run_never_OFF_TRACK_nor_WINNER (s : RaceController) (events : List Event)
    (h : s.raceStatus = WAITING) :
    (run s events).raceStatus ≠ OFF_TRACK ∧
    (run s events).raceStatus ≠ WINNER ∧
    (∀ track : Track, (TrackLapChanged (run s events) track).1.raceStatus ≠ WINNER) ∧
    (∀ ticks : Int,
      StatusCheck.reportable (run s events) ticks ≠ WINNER ∧
      IndicatorCmd.Flash [Color.WHITE, Color.BLACK] 50
        ∉ (StatusCheck (run s events) ticks).2.indicator) := by
  have h0 : StageInvariant s := by
    unfold StageInvariant
    rw [h]
    refine ⟨by decide, by decide, ?_⟩
    intro hx
    rcases hx with hx | hx <;> exact absurd hx (by decide)
  have hinv := run_StageInvariant events s h0
  generalize run s events = t at hinv
  refine ⟨hinv.1, hinv.2.1, ?_, ?_⟩
  · intro track
    exact (step_StageInvariant t (Event.lapChanged track) hinv).2.1
  · intro ticks
    have hrep := reportable_ne_WINNER t ticks hinv
    refine ⟨hrep, ?_⟩
    intro hmem
    by_cases hch : StatusCheck.reportable t ticks ≠ t.lastRaceStatus
    · rw [StatusCheck_changed_effects t ticks hch] at hmem
      exact hrep (indicatorFor_WINNER_pattern _ _ hmem)
    · have hsame : StatusCheck.reportable t ticks = t.lastRaceStatus := by
        by_contra c
        exact hch c
      by_cases hto : StatusCheck.timedOut t ticks = true
      · rw [StatusCheck_timedOut_effects t ticks hto] at hmem
        have hw : WAITING = WINNER := indicatorFor_WINNER_pattern WAITING t.trackStatusId hmem
        exact absurd hw (by decide)
      · have hto2 : StatusCheck.timedOut t ticks = false := by
          cases hb : StatusCheck.timedOut t ticks
          · rfl
          · exact absurd hb hto
        rw [StatusCheck_silent t ticks hsame hto2] at hmem
        exact absurd hmem (List.not_mem_nil _)

set_option maxRecDepth 20000 in
/-- A whole race from `WAITING`: it ends in `SHOW_WINNER`, and neither there nor
after any further lap event is the stage `WINNER`. -/
theorem run_never_OFF_TRACK_nor_WINNER_witness :
    (sample WAITING).raceStatus = WAITING ∧
    (run (sample WAITING) sampleRace).raceStatus = SHOW_WINNER ∧
    (run (sample WAITING) sampleRace).raceStatus ≠ WINNER ∧
    (TrackLapChanged (run (sample WAITING) sampleRace) (lane 2 3)).1.raceStatus ≠ WINNER :=
  ⟨rfl, rfl,
   (run_never_OFF_TRACK_nor_WINNER (sample WAITING) sampleRace rfl).2.1,
   (run_never_OFF_TRACK_nor_WINNER (sample WAITING) sampleRace rfl).2.2.1 (lane 2 3)⟩

end RaceCtl
